import Mathlib

/-!
Shallow embedding of the WhatsApp message scheduling and cancellation
subsystem of the `versaceotimizacao` repository.

The embedding follows the source files:

* `backend/utils/whatsapp.js` — greeting, first-name extraction and the
  three message templates (`MessageTemplates`);
* `backend/utils/messageQueue.js` — the queue writer
  (`queueLeadWelcomeMessage`, `queuePaymentAbandonedMessage`,
  `queuePaymentConfirmedMessage`, `cancelPendingWelcomeMessage`,
  `cancelPendingAbandonedMessage`);
* `backend/pages/api/cron/check-expired-pix.js` — the expiry sweeper
  (first handler) and the queue processor (second handler) together with
  `shouldCancelMessage` and `generateMessageText`;
* `backend/pages/api/checkout/webhook.js` and the unnamed OpenPix webhook
  file — `handleChargeCompleted`.

The relational store (Prisma) is modelled as lists of records; `findFirst`
becomes `List.find?`, `findMany` with a `where` clause becomes
`List.filter` (plus `take` for batch limits and an insertion sort for
`orderBy`), `updateMany`/`update` become `List.map` over the rows.

External collaborators (the JavaScript `Date`/`Intl` formatting of *valid*
dates, the current Brazil hour used by `getGreeting`, and the WAHA message
delivery client `sendWhatsAppMessage`) are parameters, collected in `JsEnv`.
JavaScript's `Date` applied to a malformed input yields an *Invalid Date*
value, and `toLocaleDateString`/`toLocaleTimeString` on such a value return
the string `"Invalid Date"` without throwing; `JSDate` models exactly this.
-/

/-- A JavaScript `Date` value: either a valid instant (milliseconds since
epoch) or the JS *Invalid Date* produced by `new Date(<malformed>)`. -/
inductive JSDate where
  | valid (ms : Int)
  | invalid
deriving DecidableEq, Repr

/-- `message_type` column values of `whatsAppMessage` (closed set used by
`messageQueue.js` and the processor). -/
inductive MessageType where
  | LEAD_WELCOME
  | PAYMENT_ABANDONED
  | PAYMENT_CONFIRMED
deriving DecidableEq, Repr

/-- `status` column values of `whatsAppMessage`. -/
inductive MsgStatus where
  | PENDING
  | SENT
  | CANCELLED
  | FAILED
deriving DecidableEq, Repr

/-- `status` column values of `transaction` (the fixed set used by the
webhook handlers and the expiry sweeper). -/
inductive TxStatus where
  | requires_payment_method
  | requires_confirmation
  | processing
  | requires_action
  | requires_capture
  | succeeded
  | canceled
deriving DecidableEq, Repr

/-- `payment_method` column values of `transaction`. -/
inductive PayMethod where
  | pix
  | card
deriving DecidableEq, Repr

/-- A `lead` row (the fields the queue subsystem reads). -/
structure LeadRec where
  id : Nat
  nome : String
  whatsapp : String
  stage : String
deriving DecidableEq, Repr

/-- A `transaction` row (the fields the queue subsystem reads/writes). -/
structure Transaction where
  id : Nat
  lead_id : Nat
  payment_method : PayMethod
  status : TxStatus
  created_at : Int
  scheduled_date : JSDate
  scheduled_time : JSDate
deriving DecidableEq, Repr

/-- A `meeting` row (read when rendering the confirmation message,
created by the payment-success webhook). -/
structure MeetingRec where
  transaction_id : Nat
  lead_id : Nat
  meeting_date : JSDate
  meeting_time : JSDate
  status : String
  created_at : Int
deriving DecidableEq, Repr

/-- A `whatsAppMessage` row. -/
structure QueuedMessage where
  id : Nat
  lead_id : Nat
  phone : String
  message_type : MessageType
  status : MsgStatus
  send_after : Int
  message_text : Option String
  sent_at : Option Int
  error : Option String
  created_at : Int
  updated_at : Int
deriving DecidableEq, Repr

/-- The relational store: the four tables the subsystem touches, plus a
fresh-id counter standing in for Prisma's id generation. -/
structure Store where
  leads : List LeadRec
  transactions : List Transaction
  meetings : List MeetingRec
  messages : List QueuedMessage
  nextId : Nat
deriving DecidableEq, Repr

/-- Result shape of `sendWhatsAppMessage` (`whatsapp.js`):
`{success: bool, error?: string}`. -/
structure SendResult where
  success : Bool
  error : Option String

/-- External collaborators of the core logic, passed as parameters:
the current Brazil hour consumed by `getGreeting`, the `Intl` formatting
of *valid* dates/times (`toLocaleDateString('pt-BR', …)` /
`toLocaleTimeString('pt-BR', …)`), and the WAHA delivery client. -/
structure JsEnv where
  hour : Nat
  dateStr : Int → String
  timeStr : Int → String
  send : String → String → SendResult

/-! ### `backend/utils/whatsapp.js` -/

/-- `getGreeting` (whatsapp.js): three buckets over the current Brazil
hour. -/
def getGreeting (hour : Nat) : String :=
  if 5 ≤ hour ∧ hour < 12 then "Bom dia"
  else if 12 ≤ hour ∧ hour < 18 then "Boa tarde"
  else "Boa noite"

/-- `getFirstName` (whatsapp.js): first space-delimited token of the full
name (`fullName.split(' ')[0]`). -/
def getFirstName (fullName : String) : String :=
  (fullName.splitOn " ").headD ""

/-- JS `new Date(d).toLocaleDateString('pt-BR', …)`: formats a valid
instant through `Intl` (external) and renders the Invalid Date value as
the literal string `"Invalid Date"`, without throwing. -/
def jsLocaleDate (env : JsEnv) : JSDate → String
  | .valid ms => env.dateStr ms
  | .invalid => "Invalid Date"

/-- JS `new Date(t).toLocaleTimeString('pt-BR', …)`: as `jsLocaleDate`,
for the time formatting used by the confirmation template. -/
def jsLocaleTime (env : JsEnv) : JSDate → String
  | .valid ms => env.timeStr ms
  | .invalid => "Invalid Date"

namespace MessageTemplates

/-- `MessageTemplates.leadWelcome` (whatsapp.js). -/
def leadWelcome (env : JsEnv) (nome : String) : String :=
  let greeting := getGreeting env.hour
  let firstName := getFirstName nome
  "Ola " ++ firstName ++ ", " ++ greeting.toLower ++
    ", tudo bom? Vi que voce se cadastrou pra otimizacao, se tiver algum problema ou duvida pode me avisar"

/-- `MessageTemplates.paymentAbandoned` (whatsapp.js). -/
def paymentAbandoned (env : JsEnv) (nome : String) : String :=
  let greeting := getGreeting env.hour
  let firstName := getFirstName nome
  "Ola " ++ firstName ++ ", " ++ greeting.toLower ++
    ", tudo bom? Vi que voce gerou um pagamento mas nao confirmou, se tiver tido algum problema ou tiver alguma duvida, so falar"

/-- `MessageTemplates.paymentConfirmed` (whatsapp.js): formats the meeting
date and time with `toLocaleDateString`/`toLocaleTimeString` and splices
the results into the text.  Note the source performs no validation of
`meetingDate`/`meetingTime`. -/
def paymentConfirmed (env : JsEnv) (nome : String)
    (meetingDate meetingTime : JSDate) : String :=
  let greeting := getGreeting env.hour
  let firstName := getFirstName nome
  let formattedDate := jsLocaleDate env meetingDate
  let formattedTime := jsLocaleTime env meetingTime
  "Ola " ++ firstName ++ ", " ++ greeting.toLower ++
    ", tudo bom? Vi que voce efetivou a compra da otimizacao, seu horario e as " ++
    formattedTime ++
    " e demoramos 4 horas pra fazer a otimizacao, caso queira remarcar, so me avisar, te espero no dia " ++
    formattedDate ++ " as " ++ formattedTime ++ " pelo discord, forte abraco"

end MessageTemplates

/-! ### `backend/utils/messageQueue.js` -/

/-- Delay for the welcome message: `WELCOME_MESSAGE_DELAY_MS = 2 * 60 * 1000`. -/
def WELCOME_MESSAGE_DELAY_MS : Int := 2 * 60 * 1000

/-- The `where` clause shared by the writers' duplicate checks:
`{lead_id, message_type, status: { in: ['PENDING', 'SENT'] }}`. -/
def activeWhere (leadId : Nat) (t : MessageType) (m : QueuedMessage) : Bool :=
  decide (m.lead_id = leadId ∧ m.message_type = t ∧
    (m.status = MsgStatus.PENDING ∨ m.status = MsgStatus.SENT))

/-- The `where` clause of the writers' cancellations:
`{lead_id, message_type, status: 'PENDING'}`. -/
def pendingWhere (leadId : Nat) (t : MessageType) (m : QueuedMessage) : Bool :=
  decide (m.lead_id = leadId ∧ m.message_type = t ∧ m.status = MsgStatus.PENDING)

/-- The row update performed by the writers' `updateMany`:
`data: { status: 'CANCELLED' }` on rows matching `pendingWhere`. -/
def cancelRow (leadId : Nat) (t : MessageType) (m : QueuedMessage) : QueuedMessage :=
  if pendingWhere leadId t m then { m with status := MsgStatus.CANCELLED } else m

/-- `cancelPendingWelcomeMessage` (messageQueue.js): `updateMany` setting
`status: 'CANCELLED'` on all PENDING `LEAD_WELCOME` rows of the lead;
returns the affected count. -/
def cancelPendingWelcomeMessage (leadId : Nat) (s : Store) : Nat × Store :=
  (s.messages.countP (pendingWhere leadId MessageType.LEAD_WELCOME),
   { s with messages := s.messages.map (cancelRow leadId MessageType.LEAD_WELCOME) })

/-- `cancelPendingAbandonedMessage` (messageQueue.js): as above for
`PAYMENT_ABANDONED` rows. -/
def cancelPendingAbandonedMessage (leadId : Nat) (s : Store) : Nat × Store :=
  (s.messages.countP (pendingWhere leadId MessageType.PAYMENT_ABANDONED),
   { s with messages := s.messages.map (cancelRow leadId MessageType.PAYMENT_ABANDONED) })

/-- Row created by the writers (`prisma.whatsAppMessage.create`). -/
def newQueuedMessage (s : Store) (leadId : Nat) (phone : String)
    (t : MessageType) (sendAfter now : Int) : QueuedMessage :=
  { id := s.nextId, lead_id := leadId, phone := phone, message_type := t,
    status := MsgStatus.PENDING, send_after := sendAfter,
    message_text := none, sent_at := none, error := none,
    created_at := now, updated_at := now }

/-- `queueLeadWelcomeMessage` (messageQueue.js): skip if a PENDING/SENT
`LEAD_WELCOME` row exists for the lead, else insert a PENDING row with
`send_after = now + WELCOME_MESSAGE_DELAY_MS`.  Performs no transaction
check. -/
def queueLeadWelcomeMessage (now : Int) (lead : LeadRec) (s : Store) :
    Option QueuedMessage × Store :=
  let existing := s.messages.find? (activeWhere lead.id MessageType.LEAD_WELCOME)
  match existing with
  | some _ => (none, s)
  | none =>
    let sendAfter := now + WELCOME_MESSAGE_DELAY_MS
    let message := newQueuedMessage s lead.id lead.whatsapp
      MessageType.LEAD_WELCOME sendAfter now
    (some message,
     { s with messages := s.messages ++ [message], nextId := s.nextId + 1 })

/-- `queuePaymentAbandonedMessage` (messageQueue.js): skip if the lead has
any `succeeded` transaction; skip if a PENDING/SENT `PAYMENT_ABANDONED`
row exists; else cancel pending welcome rows and insert a PENDING
`PAYMENT_ABANDONED` row with `send_after = now`. -/
def queuePaymentAbandonedMessage (now : Int) (lead : LeadRec) (s : Store) :
    Option QueuedMessage × Store :=
  let successfulPayment := s.transactions.find? fun t =>
    decide (t.lead_id = lead.id ∧ t.status = TxStatus.succeeded)
  match successfulPayment with
  | some _ => (none, s)
  | none =>
    let existing := s.messages.find? (activeWhere lead.id MessageType.PAYMENT_ABANDONED)
    match existing with
    | some _ => (none, s)
    | none =>
      let s1 := (cancelPendingWelcomeMessage lead.id s).2
      let message := newQueuedMessage s1 lead.id lead.whatsapp
        MessageType.PAYMENT_ABANDONED now now
      (some message,
       { s1 with messages := s1.messages ++ [message], nextId := s1.nextId + 1 })

/-- `queuePaymentConfirmedMessage` (messageQueue.js): skip if a
PENDING/SENT `PAYMENT_CONFIRMED` row exists; else cancel pending welcome
and abandoned rows and insert a PENDING `PAYMENT_CONFIRMED` row with
`send_after = now`. -/
def queuePaymentConfirmedMessage (now : Int) (lead : LeadRec) (s : Store) :
    Option QueuedMessage × Store :=
  let existing := s.messages.find? (activeWhere lead.id MessageType.PAYMENT_CONFIRMED)
  match existing with
  | some _ => (none, s)
  | none =>
    let s1 := (cancelPendingWelcomeMessage lead.id s).2
    let s2 := (cancelPendingAbandonedMessage lead.id s1).2
    let message := newQueuedMessage s2 lead.id lead.whatsapp
      MessageType.PAYMENT_CONFIRMED now now
    (some message,
     { s2 with messages := s2.messages ++ [message], nextId := s2.nextId + 1 })

/-! ### `check-expired-pix.js`, first handler: the expiry sweeper -/

/-- Counters returned by the expiry sweeper. -/
structure SweepResults where
  checked : Nat
  expired : Nat
  queued : Nat
  errors : Nat
deriving DecidableEq, Repr

/-- The sweeper's selection filter: `payment_method: 'pix'`,
`status: { in: ['processing', 'requires_payment_method'] }`,
`created_at: { lte: now - 16 * 60 * 1000 }`. -/
def expiredWhere (now : Int) (t : Transaction) : Bool :=
  decide (t.payment_method = PayMethod.pix ∧
    (t.status = TxStatus.processing ∨ t.status = TxStatus.requires_payment_method) ∧
    t.created_at ≤ now - 16 * 60 * 1000)

/-- `prisma.transaction.update({where: {id}, data: {status: 'canceled'}})`
applied rowwise. -/
def cancelTxRow (txId : Nat) (t : Transaction) : Transaction :=
  if t.id = txId then { t with status := TxStatus.canceled } else t

/-- The sweeper's per-transaction loop: recompute elapsed minutes
(`Math.floor((now - created_at)/1000/60)`), and when ≥ 16 cancel the
transaction and queue the abandoned message for its lead.  A missing lead
row is the modelled per-item error (`errors` counter). -/
def sweepGo (now : Int) : List Transaction → Store → SweepResults × Store
  | [], s => ({ checked := 0, expired := 0, queued := 0, errors := 0 }, s)
  | t :: rest, s =>
    let minutesSinceCreation := Int.fdiv (Int.fdiv (now - t.created_at) 1000) 60
    if 16 ≤ minutesSinceCreation then
      let s1 := { s with transactions := s.transactions.map (cancelTxRow t.id) }
      match s1.leads.find? (fun l => decide (l.id = t.lead_id)) with
      | some lead =>
        let s2 := (queuePaymentAbandonedMessage now lead s1).2
        let (r, s') := sweepGo now rest s2
        ({ r with
           checked := r.checked + 1, expired := r.expired + 1,
           queued := r.queued + 1 }, s')
      | none =>
        let (r, s') := sweepGo now rest s1
        ({ r with
           checked := r.checked + 1, expired := r.expired + 1,
           errors := r.errors + 1 }, s')
    else
      let (r, s') := sweepGo now rest s
      ({ r with checked := r.checked + 1 }, s')

/-- The expiry sweeper (`check-expired-pix.js`, first handler): select up
to 50 matching PIX transactions and process them. -/
def sweepExpired (now : Int) (s : Store) : SweepResults × Store :=
  sweepGo now ((s.transactions.filter (expiredWhere now)).take 50) s

/-! ### `check-expired-pix.js`, second handler: the queue processor -/

/-- Counters returned by the queue processor. -/
structure ProcResults where
  processed : Nat
  sent : Nat
  failed : Nat
  cancelled : Nat
deriving DecidableEq, Repr

/-- Keeps the row with the larger `created_at` (first wins ties), the
fold step realising `orderBy: { created_at: 'desc' }, take: 1`. -/
def pickLatestTx (acc : Option Transaction) (t : Transaction) : Option Transaction :=
  match acc with
  | none => some t
  | some b => if b.created_at < t.created_at then some t else some b

/-- As `pickLatestTx`, for meetings. -/
def pickLatestMeeting (acc : Option MeetingRec) (m : MeetingRec) : Option MeetingRec :=
  match acc with
  | none => some m
  | some b => if b.created_at < m.created_at then some m else some b

/-- `orderBy: { created_at: 'desc' }, take: 1` over the lead's
transactions: the transaction maximising `created_at` (first on ties). -/
def latestTransactionFor (s : Store) (leadId : Nat) : Option Transaction :=
  (s.transactions.filter (fun t => decide (t.lead_id = leadId))).foldl pickLatestTx none

/-- `orderBy: { created_at: 'desc' }, take: 1` over the lead's meetings. -/
def latestMeetingFor (s : Store) (leadId : Nat) : Option MeetingRec :=
  (s.meetings.filter (fun m => decide (m.lead_id = leadId))).foldl pickLatestMeeting none

/-- A selected message together with its `include`d join data (the lead,
the lead's latest transaction and latest meeting), as fetched by the
processor's `findMany`. -/
structure FetchedMsg where
  msg : QueuedMessage
  lead : Option LeadRec
  latestTx : Option Transaction
  latestMeeting : Option MeetingRec
deriving DecidableEq, Repr

/-- Performs the `include` join of the processor's `findMany`. -/
def fetchJoin (s : Store) (m : QueuedMessage) : FetchedMsg :=
  { msg := m,
    lead := s.leads.find? (fun l => decide (l.id = m.lead_id)),
    latestTx := latestTransactionFor s m.lead_id,
    latestMeeting := latestMeetingFor s m.lead_id }

/-- The processor's selection filter: `status: 'PENDING'`,
`send_after: { lte: now }`. -/
def dueWhere (now : Int) (m : QueuedMessage) : Bool :=
  decide (m.status = MsgStatus.PENDING ∧ m.send_after ≤ now)

/-- The processor's batch: due PENDING messages ordered by `send_after`
ascending, at most 20, each with its join data. -/
def dueBatch (now : Int) (s : Store) : List FetchedMsg :=
  (((s.messages.filter (dueWhere now)).insertionSort
      (fun a b => a.send_after ≤ b.send_after)).take 20).map (fetchJoin s)

/-- `shouldCancelMessage` (check-expired-pix.js): decide cancellation from
the *joined* latest transaction, then re-query the store for an
already-SENT sibling of the same `(lead_id, message_type)`. -/
def shouldCancelMessage (s : Store) (f : FetchedMsg) : Option String :=
  let latestTransaction := f.latestTx
  let hasPaymentAttempt := latestTransaction.isSome
  let paymentSucceeded : Bool :=
    match latestTransaction with
    | some t => decide (t.status = TxStatus.succeeded)
    | none => false
  let existingSent := s.messages.find? fun m2 =>
    decide (m2.lead_id = f.msg.lead_id ∧ m2.message_type = f.msg.message_type ∧
      m2.status = MsgStatus.SENT ∧ ¬ m2.id = f.msg.id)
  let sentCheck : Option String :=
    match existingSent with
    | some _ => some "already_sent"
    | none => none
  match f.msg.message_type with
  | MessageType.LEAD_WELCOME =>
    if hasPaymentAttempt then some "payment_attempted"
    else if paymentSucceeded then some "payment_succeeded"
    else sentCheck
  | MessageType.PAYMENT_ABANDONED =>
    if paymentSucceeded then some "payment_succeeded" else sentCheck
  | MessageType.PAYMENT_CONFIRMED => sentCheck

/-- `generateMessageText` (check-expired-pix.js): render the template for
the message type from the joined lead/meeting data; `none` when the
CONFIRMED message has no meeting (or the join is broken). -/
def generateMessageText (env : JsEnv) (f : FetchedMsg) : Option String :=
  match f.lead with
  | none => none
  | some lead =>
    match f.msg.message_type with
    | MessageType.LEAD_WELCOME =>
      some (MessageTemplates.leadWelcome env lead.nome)
    | MessageType.PAYMENT_ABANDONED =>
      some (MessageTemplates.paymentAbandoned env lead.nome)
    | MessageType.PAYMENT_CONFIRMED =>
      match f.latestMeeting with
      | none => none
      | some meeting =>
        some (MessageTemplates.paymentConfirmed env lead.nome
          meeting.meeting_date meeting.meeting_time)

/-- One `prisma.whatsAppMessage.update` call issued by the processor,
reified: the `where` clause (row id, plus the status condition when the
source's `where` has one) and the `data` fields being set. -/
structure UpdateSpec where
  id : Nat
  guard : Option MsgStatus
  newStatus : MsgStatus
  setText : Option String
  setSentAt : Option Int
  setError : Option String
  updatedAt : Int
deriving DecidableEq, Repr

/-- Whether a row's current status passes the update's `where` condition. -/
def guardOk : Option MsgStatus → MsgStatus → Bool
  | none, _ => true
  | some g, st => decide (st = g)

/-- Applies one reified update to a row. -/
def applyUpdateRow (u : UpdateSpec) (m : QueuedMessage) : QueuedMessage :=
  if u.id = m.id ∧ guardOk u.guard m.status then
    { m with
      status := u.newStatus,
      message_text := (match u.setText with | none => m.message_text | some t => some t),
      sent_at := (match u.setSentAt with | none => m.sent_at | some v => some v),
      error := (match u.setError with | none => m.error | some e => some e),
      updated_at := u.updatedAt }
  else m

/-- Applies one reified update to the store. -/
def applyUpdate (u : UpdateSpec) (s : Store) : Store :=
  { s with messages := s.messages.map (applyUpdateRow u) }

/-- One call to the delivery client (`sendWhatsAppMessage`), recorded for
observability of which messages were handed to the external client. -/
structure SendEvent where
  msgId : Nat
  phone : String
  text : String
deriving DecidableEq, Repr

/-- The processor's cancellation update:
`update({where: {id}, data: {status: 'CANCELLED', updated_at: now}})`. -/
def cancelUpdate (now : Int) (msgId : Nat) : UpdateSpec :=
  { id := msgId, guard := none, newStatus := MsgStatus.CANCELLED,
    setText := none, setSentAt := none, setError := none, updatedAt := now }

/-- The processor's failure update:
`update({where: {id}, data: {status: 'FAILED', error, updated_at: now}})`. -/
def failUpdate (now : Int) (msgId : Nat) (err : Option String) : UpdateSpec :=
  { id := msgId, guard := none, newStatus := MsgStatus.FAILED,
    setText := none, setSentAt := none, setError := err, updatedAt := now }

/-- The processor's delivery update: `update({where: {id}, data:
{status: 'SENT', message_text, sent_at: now, updated_at: now}})`. -/
def sentUpdate (now : Int) (msgId : Nat) (text : String) : UpdateSpec :=
  { id := msgId, guard := none, newStatus := MsgStatus.SENT,
    setText := some text, setSentAt := some now, setError := none,
    updatedAt := now }

/-- The processor's per-message loop: re-check cancellation, render, and
attempt delivery, transitioning the row accordingly.  Returns the
counters, the final store, the reified update calls and the delivery
calls made. -/
def processGo (now : Int) (env : JsEnv) :
    List FetchedMsg → Store → ProcResults × Store × List UpdateSpec × List SendEvent
  | [], s => ({ processed := 0, sent := 0, failed := 0, cancelled := 0 }, s, [], [])
  | f :: rest, s =>
    match shouldCancelMessage s f with
    | some _ =>
      let u := cancelUpdate now f.msg.id
      let step := processGo now env rest (applyUpdate u s)
      ({ step.1 with
         processed := step.1.processed + 1,
         cancelled := step.1.cancelled + 1 },
       step.2.1, u :: step.2.2.1, step.2.2.2)
    | none =>
      match generateMessageText env f with
      | none =>
        let u := failUpdate now f.msg.id (some "Could not generate message text")
        let step := processGo now env rest (applyUpdate u s)
        ({ step.1 with
           processed := step.1.processed + 1,
           failed := step.1.failed + 1 },
         step.2.1, u :: step.2.2.1, step.2.2.2)
      | some messageText =>
        let result := env.send f.msg.phone messageText
        let ev : SendEvent :=
          { msgId := f.msg.id, phone := f.msg.phone, text := messageText }
        if result.success then
          let u := sentUpdate now f.msg.id messageText
          let step := processGo now env rest (applyUpdate u s)
          ({ step.1 with
             processed := step.1.processed + 1,
             sent := step.1.sent + 1 },
           step.2.1, u :: step.2.2.1, ev :: step.2.2.2)
        else
          let u := failUpdate now f.msg.id result.error
          let step := processGo now env rest (applyUpdate u s)
          ({ step.1 with
             processed := step.1.processed + 1,
             failed := step.1.failed + 1 },
           step.2.1, u :: step.2.2.1, ev :: step.2.2.2)

/-- Everything one processor run produces. -/
structure ProcTrace where
  results : ProcResults
  store : Store
  updates : List UpdateSpec
  sends : List SendEvent

/-- The queue processor (`check-expired-pix.js`, second handler):
select the due batch and process it. -/
def processDue (now : Int) (env : JsEnv) (s : Store) : ProcTrace :=
  let out := processGo now env (dueBatch now s) s
  { results := out.1, store := out.2.1, updates := out.2.2.1,
    sends := out.2.2.2 }

/-! ### Payment-success webhook handlers -/

namespace Webhook

/-- `handleChargeCompleted` (`backend/pages/api/checkout/webhook.js`):
sets the transaction's status to `succeeded`, creates the meeting when
absent, and moves the lead to stage `COMPRADO`.  It performs no
message-queue operation. -/
def handleChargeCompleted (now : Int) (transaction : Transaction) (s : Store) : Store :=
  let s1 : Store :=
    { s with
      transactions := s.transactions.map (fun t =>
        if t.id = transaction.id then { t with status := TxStatus.succeeded }
        else t) }
  let existingMeeting := s1.meetings.find? fun m =>
    decide (m.transaction_id = transaction.id)
  let s2 : Store :=
    match existingMeeting with
    | some _ => s1
    | none =>
      { s1 with
        meetings := s1.meetings ++
          [{ transaction_id := transaction.id, lead_id := transaction.lead_id,
             meeting_date := transaction.scheduled_date,
             meeting_time := transaction.scheduled_time,
             status := "scheduled", created_at := now }] }
  { s2 with
    leads := s2.leads.map (fun l =>
      if l.id = transaction.lead_id then { l with stage := "COMPRADO" }
      else l) }

end Webhook

namespace OpenPixWebhook

/-- `handleChargeCompleted` (unnamed OpenPix webhook source): as
`Webhook.handleChargeCompleted` but also forcing `payment_method` to
`pix`; the Discord notification is external and has no store effect.
It performs no message-queue operation either. -/
def handleChargeCompleted (now : Int) (transaction : Transaction) (s : Store) : Store :=
  let s1 : Store :=
    { s with
      transactions := s.transactions.map (fun t =>
        if t.id = transaction.id then
          { t with status := TxStatus.succeeded, payment_method := PayMethod.pix }
        else t) }
  let existingMeeting := s1.meetings.find? fun m =>
    decide (m.transaction_id = transaction.id)
  let s2 : Store :=
    match existingMeeting with
    | some _ => s1
    | none =>
      { s1 with
        meetings := s1.meetings ++
          [{ transaction_id := transaction.id, lead_id := transaction.lead_id,
             meeting_date := transaction.scheduled_date,
             meeting_time := transaction.scheduled_time,
             status := "scheduled", created_at := now }] }
  { s2 with
    leads := s2.leads.map (fun l =>
      if l.id = transaction.lead_id then { l with stage := "COMPRADO" }
      else l) }

end OpenPixWebhook

/-! ### Sample records used by witnesses and counterexamples -/

/-- A sample lead row. -/
def sampleLead : LeadRec :=
  { id := 1, nome := "Joao Silva", whatsapp := "5511999990000", stage := "NOVO" }

/-- A sample external environment: 10h in Brazil, fixed locale formatting,
and a delivery client that always succeeds. -/
def sampleEnv : JsEnv :=
  { hour := 10, dateStr := fun _ => "sexta-feira, 9 de janeiro",
    timeStr := fun _ => "19:00",
    send := fun _ _ => { success := true, error := none } }

/-- A succeeded PIX transaction of the sample lead. -/
def sampleSucceededTx : Transaction :=
  { id := 7, lead_id := 1, payment_method := PayMethod.pix,
    status := TxStatus.succeeded, created_at := 0,
    scheduled_date := JSDate.valid 0, scheduled_time := JSDate.valid 0 }

/-! ### C1 -/

/-- C1: the payment-success webhook path (`handleChargeCompleted`, in both
the `webhook.js` and the OpenPix variant) leaves the message queue
untouched for **every** store, transaction and time: it cancels no
PENDING WELCOME or PAYMENT_ABANDONED row and enqueues no
PAYMENT_CONFIRMED row, contradicting the claim that it does. -/
theorem C1_success_path_no_queue_effect (now : Int) (txn : Transaction) (s : Store) :
    (Webhook.handleChargeCompleted now txn s).messages = s.messages ∧
    (OpenPixWebhook.handleChargeCompleted now txn s).messages = s.messages := by
  constructor
  · unfold Webhook.handleChargeCompleted
    dsimp only
    split <;> rfl
  · unfold OpenPixWebhook.handleChargeCompleted
    dsimp only
    split <;> rfl

/-! ### C5 -/

/-- C5: when the lead has a succeeded transaction,
`queuePaymentAbandonedMessage` returns `null` and leaves the store
completely unchanged — the succeeded-transaction check runs before any
write, so no ABANDONED row is created and no welcome row is cancelled. -/
theorem C5_abandoned_noop_on_success (now : Int) (lead : LeadRec) (s : Store)
    (t : Transaction) (ht : t ∈ s.transactions) (hl : t.lead_id = lead.id)
    (hs : t.status = TxStatus.succeeded) :
    queuePaymentAbandonedMessage now lead s = (none, s) := by
  have hfind : (s.transactions.find? fun tr =>
      decide (tr.lead_id = lead.id ∧ tr.status = TxStatus.succeeded)).isSome := by
    exact List.find?_isSome.mpr ⟨t, ht, by simp [hl, hs]⟩
  unfold queuePaymentAbandonedMessage
  obtain ⟨tr, htr⟩ := Option.isSome_iff_exists.mp hfind
  rw [htr]

/-- Sample store for the C5 witness: the lead has a succeeded transaction
and an empty message queue. -/
def storeC5 : Store :=
  { leads := [sampleLead], transactions := [sampleSucceededTx], meetings := [],
    messages := [], nextId := 10 }

/-- Witness for C5 at a concrete store. -/
theorem C5_abandoned_noop_on_success_witness :
    sampleSucceededTx ∈ storeC5.transactions ∧
    sampleSucceededTx.lead_id = sampleLead.id ∧
    sampleSucceededTx.status = TxStatus.succeeded ∧
    queuePaymentAbandonedMessage 0 sampleLead storeC5 = (none, storeC5) :=
  ⟨by decide, by decide, by decide,
   C5_abandoned_noop_on_success 0 sampleLead storeC5 sampleSucceededTx
     (by decide) (by decide) (by decide)⟩

/-! ### C7 -/

/-- On a malformed (Invalid Date) meeting date the rendered confirmation
message always contains the substring `"Invalid Date"`. -/
theorem paymentConfirmed_invalid_date_infix (env : JsEnv) (nome : String) (t : JSDate) :
    List.IsInfix "Invalid Date".data
      (MessageTemplates.paymentConfirmed env nome JSDate.invalid t).data := by
  refine ⟨("Ola " ++ getFirstName nome ++ ", " ++ (getGreeting env.hour).toLower ++
    ", tudo bom? Vi que voce efetivou a compra da otimizacao, seu horario e as " ++
    jsLocaleTime env t ++
    " e demoramos 4 horas pra fazer a otimizacao, caso queira remarcar, so me avisar, te espero no dia ").data,
    (" as " ++ jsLocaleTime env t ++ " pelo discord, forte abraco").data, ?_⟩
  simp only [MessageTemplates.paymentConfirmed, jsLocaleDate, String.data_append,
    List.append_assoc]

/-- C7 (counterexample): at a concrete malformed meeting date, the
confirmation template returns normally and its output *contains* the
substring `"Invalid Date"` — rendering does not fail loudly. -/
theorem C7_invalid_date_rendered_counterexample :
    List.IsInfix "Invalid Date".data
      (MessageTemplates.paymentConfirmed sampleEnv "Joao Silva"
        JSDate.invalid (JSDate.valid 0)).data :=
  paymentConfirmed_invalid_date_infix sampleEnv "Joao Silva" (JSDate.valid 0)

/-- C7 (amended): for every environment, name and meeting time, a
malformed meeting date does not make the template fail: the template is a
total function and silently renders the date component as
`"Invalid Date"` inside the message text. -/
theorem C7_amended_invalid_date_rendered (env : JsEnv) (nome : String) (t : JSDate) :
    List.IsInfix "Invalid Date".data
      (MessageTemplates.paymentConfirmed env nome JSDate.invalid t).data :=
  paymentConfirmed_invalid_date_infix env nome t

/-! ### C10 -/

/-- Folding `pickLatestTx` from a present accumulator stays present. -/
theorem foldl_pickLatestTx_isSome (l : List Transaction) :
    ∀ (acc : Option Transaction), acc.isSome = true →
    (l.foldl pickLatestTx acc).isSome = true := by
  induction l with
  | nil => intro acc h; simpa using h
  | cons x xs ih =>
    intro acc h
    cases acc with
    | none => simp at h
    | some b =>
      simp only [List.foldl_cons]
      apply ih
      unfold pickLatestTx
      split
      · rfl
      · split <;> rfl

/-- A lead with some transaction has a latest transaction. -/
theorem latestTransactionFor_isSome (s : Store) (L : Nat) (t : Transaction)
    (ht : t ∈ s.transactions) (hl : t.lead_id = L) :
    (latestTransactionFor s L).isSome = true := by
  unfold latestTransactionFor
  have hmem : t ∈ s.transactions.filter (fun tr => decide (tr.lead_id = L)) :=
    List.mem_filter.mpr ⟨ht, by simp [hl]⟩
  obtain ⟨l1, l2, hsplit⟩ := List.append_of_mem hmem
  rw [hsplit]
  clear hsplit hmem
  induction l1 with
  | nil =>
    simp only [List.nil_append, List.foldl_cons]
    exact foldl_pickLatestTx_isSome l2 (pickLatestTx none t) (by rfl)
  | cons x xs ih =>
    simp only [List.cons_append, List.foldl_cons]
    have : ∀ acc : Option Transaction, acc.isSome = true →
        ((xs ++ t :: l2).foldl pickLatestTx acc).isSome = true :=
      fun acc h => foldl_pickLatestTx_isSome _ acc h
    cases h : pickLatestTx none x with
    | none => simp [pickLatestTx] at h
    | some b => exact this (some b) rfl

/-- `shouldCancelMessage` cancels a WELCOME message as `payment_attempted`
whenever the joined latest transaction is present. -/
theorem shouldCancel_welcome_attempted (s : Store) (f : FetchedMsg)
    (hty : f.msg.message_type = MessageType.LEAD_WELCOME)
    (hsome : f.latestTx.isSome = true) :
    shouldCancelMessage s f = some "payment_attempted" := by
  unfold shouldCancelMessage
  rw [hty]
  simp [hsome]

/-- C10: `queueLeadWelcomeMessage` performs no transaction check — even
for a lead with a succeeded transaction, when no PENDING/SENT WELCOME row
exists it inserts a new PENDING WELCOME row; the suppression for paying
leads happens only at processing time, where `shouldCancelMessage`
returns `payment_attempted` for that row. -/
theorem C10_welcome_ignores_transactions (now : Int) (lead : LeadRec) (s : Store)
    (t : Transaction) (ht : t ∈ s.transactions) (hl : t.lead_id = lead.id)
    (hs : t.status = TxStatus.succeeded)
    (hnone : s.messages.countP (activeWhere lead.id MessageType.LEAD_WELCOME) = 0) :
    ∃ msg, (queueLeadWelcomeMessage now lead s).1 = some msg ∧
      msg.message_type = MessageType.LEAD_WELCOME ∧
      msg.status = MsgStatus.PENDING ∧
      msg ∈ (queueLeadWelcomeMessage now lead s).2.messages ∧
      shouldCancelMessage (queueLeadWelcomeMessage now lead s).2
        (fetchJoin (queueLeadWelcomeMessage now lead s).2 msg) =
          some "payment_attempted" := by
  have hfind : s.messages.find? (activeWhere lead.id MessageType.LEAD_WELCOME) = none := by
    apply List.find?_eq_none.mpr
    intro m hm
    simpa using List.countP_eq_zero.mp hnone m hm
  have hQ : queueLeadWelcomeMessage now lead s =
      (some (newQueuedMessage s lead.id lead.whatsapp MessageType.LEAD_WELCOME
        (now + WELCOME_MESSAGE_DELAY_MS) now),
       { s with
         messages := s.messages ++ [newQueuedMessage s lead.id lead.whatsapp
           MessageType.LEAD_WELCOME (now + WELCOME_MESSAGE_DELAY_MS) now],
         nextId := s.nextId + 1 }) := by
    unfold queueLeadWelcomeMessage
    rw [hfind]
  rw [hQ]
  refine ⟨_, rfl, rfl, rfl, by simp, ?_⟩
  exact shouldCancel_welcome_attempted _ _ rfl
    (latestTransactionFor_isSome _ lead.id t ht hl)

/-- Witness for C10: a lead with a succeeded transaction and an empty
queue still gets a fresh PENDING WELCOME row. -/
theorem C10_welcome_ignores_transactions_witness :
    sampleSucceededTx ∈ storeC5.transactions ∧
    sampleSucceededTx.lead_id = sampleLead.id ∧
    sampleSucceededTx.status = TxStatus.succeeded ∧
    storeC5.messages.countP (activeWhere sampleLead.id MessageType.LEAD_WELCOME) = 0 ∧
    (∃ msg, (queueLeadWelcomeMessage 0 sampleLead storeC5).1 = some msg ∧
      msg.message_type = MessageType.LEAD_WELCOME ∧
      msg.status = MsgStatus.PENDING ∧
      msg ∈ (queueLeadWelcomeMessage 0 sampleLead storeC5).2.messages ∧
      shouldCancelMessage (queueLeadWelcomeMessage 0 sampleLead storeC5).2
        (fetchJoin (queueLeadWelcomeMessage 0 sampleLead storeC5).2 msg) =
          some "payment_attempted") :=
  ⟨by decide, by decide, by decide, by decide,
   C10_welcome_ignores_transactions 0 sampleLead storeC5 sampleSucceededTx
     (by decide) (by decide) (by decide) (by decide)⟩

/-! ### C6 -/

/-- A PENDING row of the targeted lead and type is cancelled by
`cancelRow`. -/
theorem cancelRow_cancels {L : Nat} {T : MessageType} {m : QueuedMessage}
    (h1 : m.lead_id = L) (h2 : m.message_type = T) (h3 : m.status = MsgStatus.PENDING) :
    cancelRow L T m = { m with status := MsgStatus.CANCELLED } := by
  simp [cancelRow, pendingWhere, h1, h2, h3]

/-- `cancelRow` leaves rows of another message type alone. -/
theorem cancelRow_skips_type {L : Nat} {T : MessageType} {m : QueuedMessage}
    (h : ¬ m.message_type = T) : cancelRow L T m = m := by
  simp [cancelRow, pendingWhere, h]

/-- `cancelRow` leaves non-PENDING rows alone. -/
theorem cancelRow_skips_status {L : Nat} {T : MessageType} {m : QueuedMessage}
    (h : ¬ m.status = MsgStatus.PENDING) : cancelRow L T m = m := by
  simp [cancelRow, pendingWhere, h]

/-- C6: cascade cancellation.  A non-no-op `queuePaymentAbandonedMessage`
turns every PENDING WELCOME row of the lead into a CANCELLED row of the
result store and inserts a PENDING ABANDONED row; a non-no-op
`queuePaymentConfirmedMessage` does the same to every PENDING WELCOME and
PENDING ABANDONED row and inserts a PENDING CONFIRMED row. -/
theorem C6_cascade_cancellation :
    (∀ (now : Int) (lead : LeadRec) (s : Store) (msg : QueuedMessage) (s' : Store),
      queuePaymentAbandonedMessage now lead s = (some msg, s') →
      msg.message_type = MessageType.PAYMENT_ABANDONED ∧
      msg.status = MsgStatus.PENDING ∧ msg ∈ s'.messages ∧
      ∀ m ∈ s.messages, m.lead_id = lead.id →
        m.message_type = MessageType.LEAD_WELCOME → m.status = MsgStatus.PENDING →
        { m with status := MsgStatus.CANCELLED } ∈ s'.messages) ∧
    (∀ (now : Int) (lead : LeadRec) (s : Store) (msg : QueuedMessage) (s' : Store),
      queuePaymentConfirmedMessage now lead s = (some msg, s') →
      msg.message_type = MessageType.PAYMENT_CONFIRMED ∧
      msg.status = MsgStatus.PENDING ∧ msg ∈ s'.messages ∧
      ∀ m ∈ s.messages, m.lead_id = lead.id →
        (m.message_type = MessageType.LEAD_WELCOME ∨
          m.message_type = MessageType.PAYMENT_ABANDONED) →
        m.status = MsgStatus.PENDING →
        { m with status := MsgStatus.CANCELLED } ∈ s'.messages) := by
  constructor
  · intro now lead s msg s' h
    unfold queuePaymentAbandonedMessage at h
    rcases hp : s.transactions.find? (fun t =>
        decide (t.lead_id = lead.id ∧ t.status = TxStatus.succeeded)) with _ | tr
    · rw [hp] at h
      rcases he : s.messages.find? (activeWhere lead.id MessageType.PAYMENT_ABANDONED)
        with _ | ex
      · rw [he] at h
        simp only [Prod.mk.injEq, Option.some.injEq] at h
        obtain ⟨hmsg, hstore⟩ := h
        subst hmsg
        subst hstore
        refine ⟨rfl, rfl, by simp [cancelPendingWelcomeMessage], ?_⟩
        intro m hm hL hT hP
        have : cancelRow lead.id MessageType.LEAD_WELCOME m =
            { m with status := MsgStatus.CANCELLED } := cancelRow_cancels hL hT hP
        simp only [cancelPendingWelcomeMessage]
        exact List.mem_append_left _ (this ▸ List.mem_map_of_mem _ hm)
      · rw [he] at h
        simp at h
    · rw [hp] at h
      simp at h
  · intro now lead s msg s' h
    unfold queuePaymentConfirmedMessage at h
    rcases he : s.messages.find? (activeWhere lead.id MessageType.PAYMENT_CONFIRMED)
      with _ | ex
    · rw [he] at h
      simp only [Prod.mk.injEq, Option.some.injEq] at h
      obtain ⟨hmsg, hstore⟩ := h
      subst hmsg
      subst hstore
      refine ⟨rfl, rfl,
        by simp [cancelPendingWelcomeMessage, cancelPendingAbandonedMessage], ?_⟩
      intro m hm hL hT hP
      simp only [cancelPendingWelcomeMessage, cancelPendingAbandonedMessage]
      apply List.mem_append_left
      rcases hT with hT | hT
      · have h1 : cancelRow lead.id MessageType.LEAD_WELCOME m =
            { m with status := MsgStatus.CANCELLED } := cancelRow_cancels hL hT hP
        have h2 : cancelRow lead.id MessageType.PAYMENT_ABANDONED
            { m with status := MsgStatus.CANCELLED } =
            { m with status := MsgStatus.CANCELLED } :=
          cancelRow_skips_status (by simp)
        have hm1 := List.mem_map_of_mem
          (cancelRow lead.id MessageType.LEAD_WELCOME) hm
        rw [h1] at hm1
        have hm2 := List.mem_map_of_mem
          (cancelRow lead.id MessageType.PAYMENT_ABANDONED) hm1
        rwa [h2] at hm2
      · have h1 : cancelRow lead.id MessageType.LEAD_WELCOME m = m :=
          cancelRow_skips_type (by simp [hT])
        have h2 : cancelRow lead.id MessageType.PAYMENT_ABANDONED m =
            { m with status := MsgStatus.CANCELLED } := cancelRow_cancels hL hT hP
        have hm1 := List.mem_map_of_mem
          (cancelRow lead.id MessageType.LEAD_WELCOME) hm
        rw [h1] at hm1
        have hm2 := List.mem_map_of_mem
          (cancelRow lead.id MessageType.PAYMENT_ABANDONED) hm1
        rwa [h2] at hm2
    · rw [he] at h
      simp at h

/-- A PENDING WELCOME row used by the C6 witness. -/
def welcomeRowC6 : QueuedMessage :=
  { id := 61, lead_id := 1, phone := "5511999990000",
    message_type := MessageType.LEAD_WELCOME, status := MsgStatus.PENDING,
    send_after := 0, message_text := none, sent_at := none, error := none,
    created_at := 0, updated_at := 0 }

/-- Store for the C6 witness: one PENDING WELCOME row, no transactions. -/
def storeC6 : Store :=
  { leads := [sampleLead], transactions := [], meetings := [],
    messages := [welcomeRowC6], nextId := 70 }

/-- The ABANDONED row the C6 witness run inserts. -/
def abandonedMsgC6 : QueuedMessage :=
  { id := 70, lead_id := 1, phone := "5511999990000",
    message_type := MessageType.PAYMENT_ABANDONED, status := MsgStatus.PENDING,
    send_after := 5, message_text := none, sent_at := none, error := none,
    created_at := 5, updated_at := 5 }

/-- The store after the C6 witness run. -/
def storeC6After : Store :=
  { leads := [sampleLead], transactions := [], meetings := [],
    messages := [{ welcomeRowC6 with status := MsgStatus.CANCELLED }, abandonedMsgC6],
    nextId := 71 }

/-- Witness for C6 at a concrete store: the enqueue is non-no-op and the
pending WELCOME row ends CANCELLED in the result store. -/
theorem C6_cascade_cancellation_witness :
    queuePaymentAbandonedMessage 5 sampleLead storeC6 = (some abandonedMsgC6, storeC6After) ∧
    { welcomeRowC6 with status := MsgStatus.CANCELLED } ∈ storeC6After.messages :=
  ⟨by decide,
   (C6_cascade_cancellation.1 5 sampleLead storeC6 abandonedMsgC6 storeC6After
      (by decide)).2.2.2 welcomeRowC6 (by decide) (by decide) (by decide) (by decide)⟩

/-! ### C2 -/

/-- The five operations exported by `messageQueue.js` (the Queue Writer). -/
inductive WriterOp where
  | welcome (lead : LeadRec)
  | abandoned (lead : LeadRec)
  | confirmed (lead : LeadRec)
  | cancelWelcome (leadId : Nat)
  | cancelAbandoned (leadId : Nat)

/-- Effect of a writer operation on the store. -/
def applyWriter (now : Int) (op : WriterOp) (s : Store) : Store :=
  match op with
  | .welcome lead => (queueLeadWelcomeMessage now lead s).2
  | .abandoned lead => (queuePaymentAbandonedMessage now lead s).2
  | .confirmed lead => (queuePaymentConfirmedMessage now lead s).2
  | .cancelWelcome leadId => (cancelPendingWelcomeMessage leadId s).2
  | .cancelAbandoned leadId => (cancelPendingAbandonedMessage leadId s).2

/-- Cancelling rows never increases the number of PENDING/SENT rows of
any `(lead_id, message_type)` pair. -/
theorem countP_active_cancelMap_le (L0 : Nat) (T0 : MessageType) (L : Nat)
    (T : MessageType) (l : List QueuedMessage) :
    (l.map (cancelRow L0 T0)).countP (activeWhere L T) ≤ l.countP (activeWhere L T) := by
  rw [List.countP_map]
  apply List.countP_mono_left
  intro m _ h
  by_cases hc : pendingWhere L0 T0 m = true
  · simp only [Function.comp_apply, cancelRow, hc, if_true] at h
    simp [activeWhere] at h
  · simpa [Function.comp_apply, cancelRow, hc] using h

/-- A `find?` miss means a zero count. -/
theorem countP_eq_zero_of_find?_none {p : QueuedMessage → Bool}
    {l : List QueuedMessage} (h : l.find? p = none) : l.countP p = 0 :=
  List.countP_eq_zero.mpr (List.find?_eq_none.mp h)

/-- The freshly inserted row only counts towards its own
`(lead_id, message_type)` pair. -/
theorem activeWhere_newQueuedMessage (L : Nat) (T : MessageType) (s : Store)
    (L0 : Nat) (ph : String) (T0 : MessageType) (sa now : Int) :
    activeWhere L T (newQueuedMessage s L0 ph T0 sa now) =
      decide (L0 = L ∧ T0 = T) := by
  simp [activeWhere, newQueuedMessage, and_assoc]

/-- Reduction: the welcome writer skips when a PENDING/SENT row exists. -/
theorem queueWelcome_skip (now : Int) (lead : LeadRec) (s : Store)
    (ex : QueuedMessage)
    (he : s.messages.find? (activeWhere lead.id MessageType.LEAD_WELCOME) = some ex) :
    queueLeadWelcomeMessage now lead s = (none, s) := by
  unfold queueLeadWelcomeMessage
  rw [he]

/-- Reduction: the welcome writer inserts when no PENDING/SENT row exists. -/
theorem queueWelcome_insert (now : Int) (lead : LeadRec) (s : Store)
    (he : s.messages.find? (activeWhere lead.id MessageType.LEAD_WELCOME) = none) :
    queueLeadWelcomeMessage now lead s =
      (some (newQueuedMessage s lead.id lead.whatsapp MessageType.LEAD_WELCOME
        (now + WELCOME_MESSAGE_DELAY_MS) now),
       { s with
         messages := s.messages ++ [newQueuedMessage s lead.id lead.whatsapp
           MessageType.LEAD_WELCOME (now + WELCOME_MESSAGE_DELAY_MS) now],
         nextId := s.nextId + 1 }) := by
  unfold queueLeadWelcomeMessage
  rw [he]

/-- Reduction: the abandoned writer skips on a succeeded transaction. -/
theorem queueAbandoned_skip_success (now : Int) (lead : LeadRec) (s : Store)
    (tr : Transaction)
    (hp : s.transactions.find? (fun t =>
      decide (t.lead_id = lead.id ∧ t.status = TxStatus.succeeded)) = some tr) :
    queuePaymentAbandonedMessage now lead s = (none, s) := by
  unfold queuePaymentAbandonedMessage
  rw [hp]

/-- Reduction: the abandoned writer skips when a PENDING/SENT row exists. -/
theorem queueAbandoned_skip_existing (now : Int) (lead : LeadRec) (s : Store)
    (ex : QueuedMessage)
    (hp : s.transactions.find? (fun t =>
      decide (t.lead_id = lead.id ∧ t.status = TxStatus.succeeded)) = none)
    (he : s.messages.find? (activeWhere lead.id MessageType.PAYMENT_ABANDONED) = some ex) :
    queuePaymentAbandonedMessage now lead s = (none, s) := by
  unfold queuePaymentAbandonedMessage
  rw [hp, he]

/-- Reduction: the abandoned writer cancels pending welcome rows and
inserts when both checks pass. -/
theorem queueAbandoned_insert (now : Int) (lead : LeadRec) (s : Store)
    (hp : s.transactions.find? (fun t =>
      decide (t.lead_id = lead.id ∧ t.status = TxStatus.succeeded)) = none)
    (he : s.messages.find? (activeWhere lead.id MessageType.PAYMENT_ABANDONED) = none) :
    queuePaymentAbandonedMessage now lead s =
      (some (newQueuedMessage (cancelPendingWelcomeMessage lead.id s).2 lead.id
        lead.whatsapp MessageType.PAYMENT_ABANDONED now now),
       { (cancelPendingWelcomeMessage lead.id s).2 with
         messages := (cancelPendingWelcomeMessage lead.id s).2.messages ++
           [newQueuedMessage (cancelPendingWelcomeMessage lead.id s).2 lead.id
             lead.whatsapp MessageType.PAYMENT_ABANDONED now now],
         nextId := (cancelPendingWelcomeMessage lead.id s).2.nextId + 1 }) := by
  unfold queuePaymentAbandonedMessage
  rw [hp, he]

/-- Reduction: the confirmed writer skips when a PENDING/SENT row exists. -/
theorem queueConfirmed_skip (now : Int) (lead : LeadRec) (s : Store)
    (ex : QueuedMessage)
    (he : s.messages.find? (activeWhere lead.id MessageType.PAYMENT_CONFIRMED) = some ex) :
    queuePaymentConfirmedMessage now lead s = (none, s) := by
  unfold queuePaymentConfirmedMessage
  rw [he]

/-- Reduction: the confirmed writer cancels pending welcome/abandoned rows
and inserts when the check passes. -/
theorem queueConfirmed_insert (now : Int) (lead : LeadRec) (s : Store)
    (he : s.messages.find? (activeWhere lead.id MessageType.PAYMENT_CONFIRMED) = none) :
    queuePaymentConfirmedMessage now lead s =
      (some (newQueuedMessage
        (cancelPendingAbandonedMessage lead.id (cancelPendingWelcomeMessage lead.id s).2).2
        lead.id lead.whatsapp MessageType.PAYMENT_CONFIRMED now now),
       { (cancelPendingAbandonedMessage lead.id (cancelPendingWelcomeMessage lead.id s).2).2 with
         messages :=
           (cancelPendingAbandonedMessage lead.id (cancelPendingWelcomeMessage lead.id s).2).2.messages ++
             [newQueuedMessage
               (cancelPendingAbandonedMessage lead.id (cancelPendingWelcomeMessage lead.id s).2).2
               lead.id lead.whatsapp MessageType.PAYMENT_CONFIRMED now now],
         nextId :=
           (cancelPendingAbandonedMessage lead.id (cancelPendingWelcomeMessage lead.id s).2).2.nextId + 1 }) := by
  unfold queuePaymentConfirmedMessage
  rw [he]

/-- C2: every Queue Writer operation preserves invariant I1 — for every
lead and message type at most one row is PENDING or SENT — because each
enqueue checks for an existing PENDING/SENT row of its type before
inserting, and the cancellations only remove rows from the count. -/
theorem C2_writer_preserves_invariant (now : Int) (op : WriterOp) (s : Store)
    (hInv : ∀ L T, s.messages.countP (activeWhere L T) ≤ 1) :
    ∀ L T, (applyWriter now op s).messages.countP (activeWhere L T) ≤ 1 := by
  intro L T
  cases op with
  | welcome lead =>
    show ((queueLeadWelcomeMessage now lead s).2).messages.countP (activeWhere L T) ≤ 1
    rcases he : s.messages.find? (activeWhere lead.id MessageType.LEAD_WELCOME)
      with _ | ex
    · rw [queueWelcome_insert now lead s he]
      dsimp only
      rw [List.countP_append, List.countP_cons, List.countP_nil,
        activeWhere_newQueuedMessage]
      by_cases hLT : lead.id = L ∧ MessageType.LEAD_WELCOME = T
      · obtain ⟨hL1, hT1⟩ := hLT
        subst hL1
        subst hT1
        rw [countP_eq_zero_of_find?_none he]
        simp
      · simp only [hLT, decide_False]
        simpa using hInv L T
    · rw [queueWelcome_skip now lead s ex he]
      exact hInv L T
  | abandoned lead =>
    show ((queuePaymentAbandonedMessage now lead s).2).messages.countP (activeWhere L T) ≤ 1
    rcases hp : s.transactions.find? (fun t =>
        decide (t.lead_id = lead.id ∧ t.status = TxStatus.succeeded)) with _ | tr
    · rcases he : s.messages.find? (activeWhere lead.id MessageType.PAYMENT_ABANDONED)
        with _ | ex
      · rw [queueAbandoned_insert now lead s hp he]
        dsimp only [cancelPendingWelcomeMessage]
        rw [List.countP_append, List.countP_cons, List.countP_nil,
          activeWhere_newQueuedMessage]
        by_cases hLT : lead.id = L ∧ MessageType.PAYMENT_ABANDONED = T
        · obtain ⟨hL1, hT1⟩ := hLT
          subst hL1
          subst hT1
          have h0 : s.messages.countP
              (activeWhere lead.id MessageType.PAYMENT_ABANDONED) = 0 :=
            countP_eq_zero_of_find?_none he
          have hle := countP_active_cancelMap_le lead.id MessageType.LEAD_WELCOME
            lead.id MessageType.PAYMENT_ABANDONED s.messages
          simp only [decide_True, and_self, if_true]
          omega
        · have hle := countP_active_cancelMap_le lead.id MessageType.LEAD_WELCOME
            L T s.messages
          simp only [hLT, decide_False, Bool.false_eq_true, if_false, Nat.add_zero]
          exact le_trans hle (hInv L T)
      · rw [queueAbandoned_skip_existing now lead s ex hp he]
        exact hInv L T
    · rw [queueAbandoned_skip_success now lead s tr hp]
      exact hInv L T
  | confirmed lead =>
    show ((queuePaymentConfirmedMessage now lead s).2).messages.countP (activeWhere L T) ≤ 1
    rcases he : s.messages.find? (activeWhere lead.id MessageType.PAYMENT_CONFIRMED)
      with _ | ex
    · rw [queueConfirmed_insert now lead s he]
      dsimp only [cancelPendingWelcomeMessage, cancelPendingAbandonedMessage]
      rw [List.countP_append, List.countP_cons, List.countP_nil,
        activeWhere_newQueuedMessage]
      have hstep1 := countP_active_cancelMap_le lead.id MessageType.LEAD_WELCOME
        L T s.messages
      have hstep2 := countP_active_cancelMap_le lead.id MessageType.PAYMENT_ABANDONED
        L T (s.messages.map (cancelRow lead.id MessageType.LEAD_WELCOME))
      by_cases hLT : lead.id = L ∧ MessageType.PAYMENT_CONFIRMED = T
      · obtain ⟨hL1, hT1⟩ := hLT
        subst hL1
        subst hT1
        have h0 : s.messages.countP
            (activeWhere lead.id MessageType.PAYMENT_CONFIRMED) = 0 :=
          countP_eq_zero_of_find?_none he
        have hstep1' := countP_active_cancelMap_le lead.id MessageType.LEAD_WELCOME
          lead.id MessageType.PAYMENT_CONFIRMED s.messages
        have hstep2' := countP_active_cancelMap_le lead.id MessageType.PAYMENT_ABANDONED
          lead.id MessageType.PAYMENT_CONFIRMED
          (s.messages.map (cancelRow lead.id MessageType.LEAD_WELCOME))
        simp only [decide_True, and_self, if_true]
        omega
      · simp only [hLT, decide_False, Bool.false_eq_true, if_false, Nat.add_zero]
        exact le_trans hstep2 (le_trans hstep1 (hInv L T))
    · rw [queueConfirmed_skip now lead s ex he]
      exact hInv L T
  | cancelWelcome leadId =>
    show ((cancelPendingWelcomeMessage leadId s).2).messages.countP (activeWhere L T) ≤ 1
    dsimp only [cancelPendingWelcomeMessage]
    exact le_trans (countP_active_cancelMap_le leadId MessageType.LEAD_WELCOME L T
      s.messages) (hInv L T)
  | cancelAbandoned leadId =>
    show ((cancelPendingAbandonedMessage leadId s).2).messages.countP (activeWhere L T) ≤ 1
    dsimp only [cancelPendingAbandonedMessage]
    exact le_trans (countP_active_cancelMap_le leadId MessageType.PAYMENT_ABANDONED L T
      s.messages) (hInv L T)

/-- Witness for C2: the invariant holds on a small concrete store and is
preserved by a concrete enqueue. -/
theorem C2_writer_preserves_invariant_witness :
    (∀ L T, storeC5.messages.countP (activeWhere L T) ≤ 1) ∧
    (∀ L T, (applyWriter 0 (WriterOp.welcome sampleLead) storeC5).messages.countP
      (activeWhere L T) ≤ 1) :=
  have h : ∀ L T, storeC5.messages.countP (activeWhere L T) ≤ 1 := fun L T => by
    simp [storeC5]
  ⟨h, C2_writer_preserves_invariant 0 (WriterOp.welcome sampleLead) storeC5 h⟩

/-! ### C8 -/

/-- Every store update the processor loop issues carries no status
condition in its `where` clause. -/
theorem processGo_guard_none (now : Int) (env : JsEnv) :
    ∀ (batch : List FetchedMsg) (s : Store) (u : UpdateSpec),
      u ∈ (processGo now env batch s).2.2.1 → u.guard = none := by
  intro batch
  induction batch with
  | nil =>
    intro s u hu
    simp [processGo] at hu
  | cons f rest ih =>
    intro s u hu
    unfold processGo at hu
    rcases h1 : shouldCancelMessage s f with _ | r
    · rw [h1] at hu
      rcases h2 : generateMessageText env f with _ | text
      · rw [h2] at hu
        dsimp only at hu
        rcases List.mem_cons.mp hu with hu | hu
        · subst hu; rfl
        · exact ih _ u hu
      · rw [h2] at hu
        dsimp only at hu
        rcases h3 : (env.send f.msg.phone text).success with _ | _
        · rw [h3] at hu
          simp only [Bool.false_eq_true, if_false] at hu
          rcases List.mem_cons.mp hu with hu | hu
          · subst hu; rfl
          · exact ih _ u hu
        · rw [h3] at hu
          simp only [if_true] at hu
          rcases List.mem_cons.mp hu with hu | hu
          · subst hu; rfl
          · exact ih _ u hu
    · rw [h1] at hu
      dsimp only at hu
      rcases List.mem_cons.mp hu with hu | hu
      · subst hu; rfl
      · exact ih _ u hu

/-- C8 (amended): every status-transition update the Queue Processor
performs is selected by row id alone: its `where` clause carries **no**
status condition (`guard = none`); only the batch selection filtered on
PENDING beforehand. -/
theorem C8_amended_updates_unguarded (now : Int) (env : JsEnv) (s : Store)
    (u : UpdateSpec) (hu : u ∈ (processDue now env s).updates) :
    u.guard = none :=
  processGo_guard_none now env (dueBatch now s) s u hu

/-- A due PENDING WELCOME row for the C8/C3 stores. -/
def welcomeRowC8 : QueuedMessage :=
  { id := 61, lead_id := 1, phone := "5511999990000",
    message_type := MessageType.LEAD_WELCOME, status := MsgStatus.PENDING,
    send_after := 0, message_text := none, sent_at := none, error := none,
    created_at := 0, updated_at := 0 }

/-- A processing PIX transaction of the sample lead. -/
def txProcessingC8 : Transaction :=
  { id := 8, lead_id := 1, payment_method := PayMethod.pix,
    status := TxStatus.processing, created_at := 0,
    scheduled_date := JSDate.valid 0, scheduled_time := JSDate.valid 0 }

/-- Store for the C8 counterexample: one due WELCOME row whose lead has a
payment attempt, so the processor cancels it. -/
def storeC8 : Store :=
  { leads := [sampleLead], transactions := [txProcessingC8], meetings := [],
    messages := [welcomeRowC8], nextId := 70 }

/-- C8 (counterexample): a concrete processor run issues exactly one
update, whose `where` clause has no status condition at all — not one
requiring the row to still be PENDING. -/
theorem C8_guard_counterexample :
    (processDue 1000 sampleEnv storeC8).updates = [cancelUpdate 1000 61] ∧
    (cancelUpdate 1000 61).guard ≠ some MsgStatus.PENDING := by
  constructor
  · decide
  · decide

/-- Witness for the amended C8 at a concrete run. -/
theorem C8_amended_updates_unguarded_witness :
    cancelUpdate 1000 61 ∈ (processDue 1000 sampleEnv storeC8).updates ∧
    (cancelUpdate 1000 61).guard = none :=
  ⟨by decide,
   C8_amended_updates_unguarded 1000 sampleEnv storeC8 (cancelUpdate 1000 61)
     (by decide)⟩

/-! ### C3 -/

/-- `applyUpdateRow` never changes the row id. -/
theorem applyUpdateRow_id (u : UpdateSpec) (m : QueuedMessage) :
    (applyUpdateRow u m).id = m.id := by
  unfold applyUpdateRow
  split <;> rfl

/-- `applyUpdateRow` leaves rows with a different id alone. -/
theorem applyUpdateRow_ne (u : UpdateSpec) (m : QueuedMessage)
    (h : ¬ u.id = m.id) : applyUpdateRow u m = m := by
  unfold applyUpdateRow
  rw [if_neg]
  intro hc
  exact h hc.1

/-- An unguarded update sets the status of the matching row. -/
theorem applyUpdateRow_status (u : UpdateSpec) (m : QueuedMessage)
    (h : u.id = m.id) (hg : u.guard = none) :
    (applyUpdateRow u m).status = u.newStatus := by
  unfold applyUpdateRow
  rw [if_pos ⟨h, by rw [hg]; rfl⟩]

/-- `shouldCancelMessage` cancels an ABANDONED message as
`payment_succeeded` whenever the joined latest transaction succeeded. -/
theorem shouldCancel_abandoned_succeeded (s : Store) (f : FetchedMsg)
    (hty : f.msg.message_type = MessageType.PAYMENT_ABANDONED)
    (t : Transaction) (hlt : f.latestTx = some t)
    (hst : t.status = TxStatus.succeeded) :
    shouldCancelMessage s f = some "payment_succeeded" := by
  unfold shouldCancelMessage
  rw [hty, hlt]
  simp [hst]

/-- Once every row with a given id is CANCELLED and the remaining batch
does not name that id, the rest of the run keeps those rows CANCELLED and
never hands that id to the delivery client. -/
theorem processGo_preserves_cancelled_id (now : Int) (env : JsEnv) :
    ∀ (batch : List FetchedMsg) (s : Store) (X : Nat),
      (∀ b ∈ batch, b.msg.id ≠ X) →
      (∀ c ∈ s.messages, c.id = X → c.status = MsgStatus.CANCELLED) →
      (∀ c ∈ (processGo now env batch s).2.1.messages, c.id = X →
        c.status = MsgStatus.CANCELLED) ∧
      (∀ e ∈ (processGo now env batch s).2.2.2, e.msgId ≠ X) := by
  intro batch
  induction batch with
  | nil =>
    intro s X _ hst
    refine ⟨fun c hc => hst c hc, ?_⟩
    intro e he
    simp [processGo] at he
  | cons b rest ih =>
    intro s X hb hst
    have hbX : b.msg.id ≠ X := hb b (List.mem_cons_self b rest)
    have hrest : ∀ f ∈ rest, f.msg.id ≠ X := fun f hf => hb f (List.mem_cons_of_mem b hf)
    have hkeep : ∀ (u : UpdateSpec), u.id = b.msg.id →
        ∀ c ∈ (applyUpdate u s).messages, c.id = X → c.status = MsgStatus.CANCELLED := by
      intro u huid c hc hcX
      obtain ⟨c0, hc0, hc0eq⟩ := List.mem_map.mp hc
      have hid : c0.id = X := by
        rw [← hcX, ← hc0eq, applyUpdateRow_id]
      have : applyUpdateRow u c0 = c0 := by
        apply applyUpdateRow_ne
        rw [huid, hid]
        exact hbX
      rw [← hc0eq, this]
      exact hst c0 hc0 hid
    unfold processGo
    rcases h1 : shouldCancelMessage s b with _ | r
    · rcases h2 : generateMessageText env b with _ | text
      · dsimp only
        exact ih (applyUpdate (failUpdate now b.msg.id
          (some "Could not generate message text")) s) X hrest (hkeep _ rfl)
      · dsimp only
        rcases h3 : (env.send b.msg.phone text).success with _ | _
        · simp only [Bool.false_eq_true, if_false]
          obtain ⟨ha, hb2⟩ := ih (applyUpdate (failUpdate now b.msg.id
            ((env.send b.msg.phone text).error)) s) X hrest (hkeep _ rfl)
          refine ⟨ha, ?_⟩
          intro e he
          rcases List.mem_cons.mp he with he | he
          · subst he; exact hbX
          · exact hb2 e he
        · simp only [if_true]
          obtain ⟨ha, hb2⟩ := ih (applyUpdate (sentUpdate now b.msg.id text) s) X
            hrest (hkeep _ rfl)
          refine ⟨ha, ?_⟩
          intro e he
          rcases List.mem_cons.mp he with he | he
          · subst he; exact hbX
          · exact hb2 e he
    · dsimp only
      exact ih (applyUpdate (cancelUpdate now b.msg.id) s) X hrest (hkeep _ rfl)

/-- Core of the amended C3: a batch member of type PAYMENT_ABANDONED
whose joined latest transaction succeeded ends with every row of its id
CANCELLED, and its id is never handed to the delivery client. -/
theorem processGo_abandoned_latest_succeeded (now : Int) (env : JsEnv) :
    ∀ (batch : List FetchedMsg) (s : Store) (f0 : FetchedMsg)
      (t : Transaction),
      (batch.map (fun b => b.msg.id)).Nodup →
      f0 ∈ batch →
      f0.msg.message_type = MessageType.PAYMENT_ABANDONED →
      f0.latestTx = some t →
      t.status = TxStatus.succeeded →
      (∀ c ∈ (processGo now env batch s).2.1.messages, c.id = f0.msg.id →
        c.status = MsgStatus.CANCELLED) ∧
      (∀ e ∈ (processGo now env batch s).2.2.2, e.msgId ≠ f0.msg.id) := by
  intro batch
  induction batch with
  | nil =>
    intro s f0 t _ hmem
    exact absurd hmem (List.not_mem_nil f0)
  | cons b rest ih =>
    intro s f0 t hnodup hmem hty hlt hst
    have hni : b.msg.id ∉ rest.map (fun b => b.msg.id) :=
      (List.nodup_cons.mp hnodup).1
    have hnodup' : (rest.map (fun b => b.msg.id)).Nodup :=
      (List.nodup_cons.mp hnodup).2
    rcases List.mem_cons.mp hmem with hf0 | hf0
    · subst hf0
      have h1 : shouldCancelMessage s f0 = some "payment_succeeded" :=
        shouldCancel_abandoned_succeeded s f0 hty t hlt hst
      unfold processGo
      rw [h1]
      dsimp only
      apply processGo_preserves_cancelled_id
      · intro f hf hfX
        exact hni (hfX ▸ List.mem_map_of_mem (fun b => b.msg.id) hf)
      · intro c hc hcX
        obtain ⟨c0, hc0, hc0eq⟩ := List.mem_map.mp hc
        have hid : c0.id = f0.msg.id := by
          rw [← hcX, ← hc0eq, applyUpdateRow_id]
        rw [← hc0eq]
        exact applyUpdateRow_status _ c0 hid.symm rfl
    · have hne : b.msg.id ≠ f0.msg.id := by
        intro hcon
        exact hni (hcon ▸ List.mem_map_of_mem (fun b => b.msg.id) hf0)
      unfold processGo
      rcases h1 : shouldCancelMessage s b with _ | r
      · rcases h2 : generateMessageText env b with _ | text
        · dsimp only
          exact ih (applyUpdate (failUpdate now b.msg.id
            (some "Could not generate message text")) s) f0 t hnodup' hf0 hty hlt hst
        · dsimp only
          rcases h3 : (env.send b.msg.phone text).success with _ | _
          · simp only [Bool.false_eq_true, if_false]
            obtain ⟨ha, hsend⟩ := ih (applyUpdate (failUpdate now b.msg.id
              ((env.send b.msg.phone text).error)) s) f0 t hnodup' hf0 hty hlt hst
            refine ⟨ha, ?_⟩
            intro e he
            rcases List.mem_cons.mp he with he | he
            · subst he; exact hne
            · exact hsend e he
          · simp only [if_true]
            obtain ⟨ha, hsend⟩ := ih (applyUpdate (sentUpdate now b.msg.id text) s)
              f0 t hnodup' hf0 hty hlt hst
            refine ⟨ha, ?_⟩
            intro e he
            rcases List.mem_cons.mp he with he | he
            · subst he; exact hne
            · exact hsend e he
      · dsimp only
        exact ih (applyUpdate (cancelUpdate now b.msg.id) s) f0 t hnodup' hf0 hty hlt hst

/-- C3 (amended): a due PAYMENT_ABANDONED message is cancelled — never
rendered or sent — when the lead's **most recent** transaction (the one
the processor's `take: 1, orderBy created_at desc` join selects) has
status succeeded at selection time. -/
theorem C3_amended_latest_succeeded_cancels (now : Int) (env : JsEnv) (s : Store)
    (f0 : FetchedMsg) (t : Transaction)
    (hnodup : ((dueBatch now s).map (fun b => b.msg.id)).Nodup)
    (hmem : f0 ∈ dueBatch now s)
    (hty : f0.msg.message_type = MessageType.PAYMENT_ABANDONED)
    (hlt : f0.latestTx = some t)
    (hst : t.status = TxStatus.succeeded) :
    (∀ c ∈ (processDue now env s).store.messages, c.id = f0.msg.id →
      c.status = MsgStatus.CANCELLED) ∧
    (∀ e ∈ (processDue now env s).sends, e.msgId ≠ f0.msg.id) :=
  processGo_abandoned_latest_succeeded now env (dueBatch now s) s f0 t
    hnodup hmem hty hlt hst

/-- A due PENDING ABANDONED row used by the C3 stores. -/
def abandonedRowC3 : QueuedMessage :=
  { id := 50, lead_id := 1, phone := "5511999990000",
    message_type := MessageType.PAYMENT_ABANDONED, status := MsgStatus.PENDING,
    send_after := 0, message_text := none, sent_at := none, error := none,
    created_at := 0, updated_at := 0 }

/-- An old succeeded transaction (created_at 0). -/
def txOldSucceededC3 : Transaction :=
  { id := 11, lead_id := 1, payment_method := PayMethod.pix,
    status := TxStatus.succeeded, created_at := 0,
    scheduled_date := JSDate.valid 0, scheduled_time := JSDate.valid 0 }

/-- A newer processing transaction (created_at 100) that hides the
succeeded one from the `take: 1` join. -/
def txNewProcessingC3 : Transaction :=
  { id := 12, lead_id := 1, payment_method := PayMethod.pix,
    status := TxStatus.processing, created_at := 100,
    scheduled_date := JSDate.valid 0, scheduled_time := JSDate.valid 0 }

/-- Store for the C3 counterexample: the lead has a succeeded transaction,
but a more recent processing one. -/
def storeC3 : Store :=
  { leads := [sampleLead],
    transactions := [txOldSucceededC3, txNewProcessingC3], meetings := [],
    messages := [abandonedRowC3], nextId := 90 }

/-- C3 (counterexample): the lead *does* have a succeeded transaction at
processing time, yet the processor sends the due PAYMENT_ABANDONED
message (final status SENT, delivery attempted) because only the **most
recent** transaction is consulted. -/
theorem C3_any_succeeded_counterexample :
    (∃ t ∈ storeC3.transactions, t.lead_id = abandonedRowC3.lead_id ∧
      t.status = TxStatus.succeeded) ∧
    fetchJoin storeC3 abandonedRowC3 ∈ dueBatch 1000 storeC3 ∧
    ((processDue 1000 sampleEnv storeC3).store.messages.map (fun m => m.status) =
      [MsgStatus.SENT]) ∧
    ((processDue 1000 sampleEnv storeC3).sends.map (fun e => e.msgId) = [50]) := by
  refine ⟨?_, ?_, ?_, ?_⟩ <;> decide

/-- A latest (and only) succeeded transaction for the C3 witness store. -/
def txLatestSucceededC3 : Transaction :=
  { id := 13, lead_id := 1, payment_method := PayMethod.pix,
    status := TxStatus.succeeded, created_at := 100,
    scheduled_date := JSDate.valid 0, scheduled_time := JSDate.valid 0 }

/-- Store for the C3 amended witness: the latest transaction succeeded. -/
def storeC3W : Store :=
  { leads := [sampleLead], transactions := [txLatestSucceededC3], meetings := [],
    messages := [abandonedRowC3], nextId := 90 }

/-- Witness for the amended C3 at a concrete run. -/
theorem C3_amended_latest_succeeded_cancels_witness :
    ((dueBatch 1000 storeC3W).map (fun b => b.msg.id)).Nodup ∧
    fetchJoin storeC3W abandonedRowC3 ∈ dueBatch 1000 storeC3W ∧
    (fetchJoin storeC3W abandonedRowC3).latestTx = some txLatestSucceededC3 ∧
    ((∀ c ∈ (processDue 1000 sampleEnv storeC3W).store.messages,
        c.id = abandonedRowC3.id → c.status = MsgStatus.CANCELLED) ∧
     (∀ e ∈ (processDue 1000 sampleEnv storeC3W).sends,
        e.msgId ≠ abandonedRowC3.id)) :=
  ⟨by decide, by decide, by decide,
   C3_amended_latest_succeeded_cancels 1000 sampleEnv storeC3W
     (fetchJoin storeC3W abandonedRowC3) txLatestSucceededC3
     (by decide) (by decide) (by decide) (by decide) (by decide)⟩

/-! ### C9 -/

/-- The abandoned writer never touches the transactions table. -/
theorem queueAbandoned_transactions (now : Int) (lead : LeadRec) (s : Store) :
    (queuePaymentAbandonedMessage now lead s).2.transactions = s.transactions := by
  rcases hp : s.transactions.find? (fun t =>
      decide (t.lead_id = lead.id ∧ t.status = TxStatus.succeeded)) with _ | tr
  · rcases he : s.messages.find? (activeWhere lead.id MessageType.PAYMENT_ABANDONED)
      with _ | ex
    · rw [queueAbandoned_insert now lead s hp he]
      rfl
    · rw [queueAbandoned_skip_existing now lead s ex hp he]
  · rw [queueAbandoned_skip_success now lead s tr hp]

/-- One sweeper step leaves a transaction row unchanged or cancels it. -/
def TxStep (a b : Transaction) : Prop :=
  b = a ∨ b = { a with status := TxStatus.canceled }

/-- `TxStep` composes. -/
theorem TxStep_trans {a b c : Transaction} (h1 : TxStep a b) (h2 : TxStep b c) :
    TxStep a c := by
  rcases h1 with h1 | h1 <;> rcases h2 with h2 | h2 <;> subst h1 <;> subst h2
  · exact Or.inl rfl
  · exact Or.inr rfl
  · exact Or.inr rfl
  · exact Or.inr rfl

/-- `TxStep` preserves the row id. -/
theorem TxStep_id {a b : Transaction} (h : TxStep a b) : b.id = a.id := by
  rcases h with h | h <;> subst h <;> rfl

/-- `TxStep` keeps a cancelled row cancelled. -/
theorem TxStep_canceled {a b : Transaction} (h : TxStep a b)
    (hc : a.status = TxStatus.canceled) : b.status = TxStatus.canceled := by
  rcases h with h | h <;> subst h
  · exact hc
  · rfl

/-- `cancelTxRow` is a `TxStep`. -/
theorem TxStep_cancelTxRow (X : Nat) (a : Transaction) :
    TxStep a (cancelTxRow X a) := by
  unfold cancelTxRow
  split
  · exact Or.inr rfl
  · exact Or.inl rfl

/-- The sweeper only rewrites transaction rows in place (same length,
each row unchanged or cancelled). -/
theorem sweepGo_shape (now : Int) :
    ∀ (batch : List Transaction) (s : Store),
      ((sweepGo now batch s).2.transactions.length = s.transactions.length) ∧
      (∀ (i : Nat) (t t' : Transaction), s.transactions.get? i = some t →
        (sweepGo now batch s).2.transactions.get? i = some t' → TxStep t t') := by
  intro batch
  induction batch with
  | nil =>
    intro s
    refine ⟨rfl, ?_⟩
    intro i t t' ht ht'
    rw [show (sweepGo now [] s).2 = s from rfl] at ht'
    rw [ht] at ht'
    exact Or.inl (Option.some.inj ht').symm
  | cons b rest ih =>
    intro s
    unfold sweepGo
    dsimp only
    by_cases hg : 16 ≤ ((now - b.created_at).fdiv 1000).fdiv 60
    · rw [if_pos hg]
      rcases hf : List.find? (fun l => decide (l.id = b.lead_id)) s.leads with _ | lead
      · rw [hf]
        obtain ⟨hlen, hget⟩ := ih
          { s with transactions := s.transactions.map (cancelTxRow b.id) }
        refine ⟨?_, ?_⟩
        · rw [hlen]
          simp
        · intro i t t' ht ht'
          refine TxStep_trans (TxStep_cancelTxRow b.id t) (hget i _ t' ?_ ht')
          show (s.transactions.map (cancelTxRow b.id)).get? i = _
          rw [List.get?_map, ht]
          rfl
      · rw [hf]
        have htx : (queuePaymentAbandonedMessage now lead
            { s with transactions := s.transactions.map (cancelTxRow b.id) }).2.transactions =
            s.transactions.map (cancelTxRow b.id) :=
          queueAbandoned_transactions now lead _
        obtain ⟨hlen, hget⟩ := ih ((queuePaymentAbandonedMessage now lead
          { s with transactions := s.transactions.map (cancelTxRow b.id) }).2)
        refine ⟨?_, ?_⟩
        · rw [hlen, htx]
          simp
        · intro i t t' ht ht'
          refine TxStep_trans (TxStep_cancelTxRow b.id t) (hget i _ t' ?_ ht')
          rw [htx, List.get?_map, ht]
          rfl
    · rw [if_neg hg]
      exact ih s

/-- Cancelled rows stay cancelled for the rest of a sweep. -/
theorem sweepGo_keeps_canceled (now : Int) (batch : List Transaction) (s : Store)
    (i : Nat) (t0 : Transaction) (ht0 : s.transactions.get? i = some t0)
    (hc : t0.status = TxStatus.canceled) (t' : Transaction)
    (ht' : (sweepGo now batch s).2.transactions.get? i = some t') :
    t'.status = TxStatus.canceled :=
  TxStep_canceled ((sweepGo_shape now batch s).2 i t0 t' ht0 ht') hc

/-- Every batch member's row (and any row sharing its id) is cancelled by
the end of the sweep. -/
theorem sweepGo_member_canceled (now : Int) :
    ∀ (batch : List Transaction) (s : Store) (t : Transaction), t ∈ batch →
      16 ≤ Int.fdiv (Int.fdiv (now - t.created_at) 1000) 60 →
      ∀ (i : Nat) (t0 : Transaction), s.transactions.get? i = some t0 →
        t0.id = t.id →
      ∀ t', (sweepGo now batch s).2.transactions.get? i = some t' →
        t'.status = TxStatus.canceled := by
  intro batch
  induction batch with
  | nil =>
    intro s t hmem
    exact absurd hmem (List.not_mem_nil t)
  | cons b rest ih =>
    intro s t hmem hg i t0 ht0 hid t' ht'
    have hcanc : (s.transactions.map (cancelTxRow b.id)).get? i =
        some (cancelTxRow b.id t0) := by
      rw [List.get?_map, ht0]
      rfl
    rcases List.mem_cons.mp hmem with hf | hf
    · subst hf
      unfold sweepGo at ht'
      dsimp only at ht'
      rw [if_pos hg] at ht'
      have hst : (cancelTxRow t.id t0).status = TxStatus.canceled := by
        unfold cancelTxRow
        rw [if_pos hid]
      rcases hf2 : List.find? (fun l => decide (l.id = t.lead_id)) s.leads with _ | lead
      · rw [hf2] at ht'
        exact sweepGo_keeps_canceled now rest _ i (cancelTxRow t.id t0)
          hcanc hst t' ht'
      · rw [hf2] at ht'
        refine sweepGo_keeps_canceled now rest _ i (cancelTxRow t.id t0)
          ?_ hst t' ht'
        rw [queueAbandoned_transactions now lead _]
        exact hcanc
    · have hid2 : (cancelTxRow b.id t0).id = t.id := by
        rw [← hid]
        unfold cancelTxRow
        split <;> rfl
      unfold sweepGo at ht'
      dsimp only at ht'
      by_cases hgb : 16 ≤ ((now - b.created_at).fdiv 1000).fdiv 60
      · rw [if_pos hgb] at ht'
        rcases hf2 : List.find? (fun l => decide (l.id = b.lead_id)) s.leads with _ | lead
        · rw [hf2] at ht'
          exact ih _ t hf hg i (cancelTxRow b.id t0) hcanc hid2 t' ht'
        · rw [hf2] at ht'
          refine ih _ t hf hg i (cancelTxRow b.id t0) ?_ hid2 t' ht'
          rw [queueAbandoned_transactions now lead _]
          exact hcanc
      · rw [if_neg hgb] at ht'
        exact ih _ t hf hg i t0 ht0 hid t' ht'

/-- A transaction matching the sweeper's selection filter also passes the
defensive in-loop recomputation of elapsed minutes. -/
theorem expiredWhere_guard (now : Int) (t : Transaction)
    (h : expiredWhere now t = true) :
    16 ≤ Int.fdiv (Int.fdiv (now - t.created_at) 1000) 60 := by
  have hle : t.created_at ≤ now - 16 * 60 * 1000 := by
    have := of_decide_eq_true h
    exact this.2.2
  have hx : (960000 : Int) ≤ now - t.created_at := by omega
  rw [Int.fdiv_eq_ediv _ (by norm_num), Int.fdiv_eq_ediv _ (by norm_num)]
  have h1 : (960000 : Int) / 1000 ≤ (now - t.created_at) / 1000 :=
    Int.ediv_le_ediv (by norm_num) hx
  have h2 : (960000 : Int) / 1000 / 60 ≤ (now - t.created_at) / 1000 / 60 :=
    Int.ediv_le_ediv (by norm_num) h1
  norm_num at h2
  omega

/-- A cancelled transaction never matches the sweeper's filter. -/
theorem expiredWhere_canceled (now : Int) (t : Transaction)
    (h : t.status = TxStatus.canceled) : expiredWhere now t = false := by
  apply decide_eq_false
  intro hc
  rcases hc.2.1 with h2 | h2 <;> rw [h] at h2 <;> exact TxStatus.noConfusion h2

/-- After one full sweep (batch limit not exceeded), no transaction
matches the selection filter any more. -/
theorem sweepExpired_clears (now : Int) (s : Store)
    (hle : (s.transactions.filter (expiredWhere now)).length ≤ 50) :
    ∀ t' ∈ (sweepExpired now s).2.transactions, expiredWhere now t' = false := by
  intro t' ht'
  have hbatch : (s.transactions.filter (expiredWhere now)).take 50 =
      s.transactions.filter (expiredWhere now) := List.take_of_length_le hle
  obtain ⟨⟨i, hi⟩, hget⟩ := List.mem_iff_get.mp ht'
  have hget? : (sweepExpired now s).2.transactions.get? i = some t' := by
    rw [List.get?_eq_get hi, hget]
  have hilt : i < s.transactions.length := by
    have := (sweepGo_shape now ((s.transactions.filter (expiredWhere now)).take 50) s).1
    unfold sweepExpired at hi
    omega
  have ht0 : s.transactions.get? i = some (s.transactions.get ⟨i, hilt⟩) :=
    List.get?_eq_get hilt
  have hstep : TxStep (s.transactions.get ⟨i, hilt⟩) t' :=
    (sweepGo_shape now ((s.transactions.filter (expiredWhere now)).take 50) s).2
      i _ t' ht0 hget?
  by_cases hexp : expiredWhere now (s.transactions.get ⟨i, hilt⟩) = true
  · have hmem : s.transactions.get ⟨i, hilt⟩ ∈
        (s.transactions.filter (expiredWhere now)).take 50 := by
      rw [hbatch]
      exact List.mem_filter.mpr ⟨List.get_mem _ i hilt, hexp⟩
    have hcanc : t'.status = TxStatus.canceled :=
      sweepGo_member_canceled now _ s _ hmem
        (expiredWhere_guard now _ hexp) i _ ht0 rfl t' hget?
    exact expiredWhere_canceled now t' hcanc
  · rcases hstep with hstep | hstep
    · rw [hstep]
      exact Bool.not_eq_true _ ▸ (by simpa using hexp)
    · rw [hstep]
      exact expiredWhere_canceled now _ rfl

/-- C9 (amended): when the store holds at most 50 transactions matching
the sweeper's filter — the per-run batch limit — running `sweepExpired`
twice in immediate succession yields `expired = 0` on the second run:
the first run cancels every matching PIX transaction and the filter
excludes cancelled rows. -/
theorem C9_amended_sweep_idempotent (now : Int) (s : Store)
    (hle : (s.transactions.filter (expiredWhere now)).length ≤ 50) :
    (sweepExpired now (sweepExpired now s).2).1.expired = 0 := by
  have hnil : (sweepExpired now s).2.transactions.filter (expiredWhere now) = [] := by
    apply List.filter_eq_nil_iff.mpr
    intro t' ht'
    rw [sweepExpired_clears now s hle t' ht']
    exact Bool.false_ne_true
  show (sweepGo now (((sweepExpired now s).2.transactions.filter
    (expiredWhere now)).take 50) (sweepExpired now s).2).1.expired = 0
  rw [hnil]
  rfl

/-- An expired processing PIX transaction for the C9 witness. -/
def txExpiredC9 : Transaction :=
  { id := 21, lead_id := 1, payment_method := PayMethod.pix,
    status := TxStatus.processing, created_at := 0,
    scheduled_date := JSDate.valid 0, scheduled_time := JSDate.valid 0 }

/-- Store for the C9 witness: one expired PIX transaction. -/
def storeC9W : Store :=
  { leads := [sampleLead], transactions := [txExpiredC9], meetings := [],
    messages := [], nextId := 300 }

/-- Witness for the amended C9 at a concrete store. -/
theorem C9_amended_sweep_idempotent_witness :
    (storeC9W.transactions.filter (expiredWhere 1000000)).length ≤ 50 ∧
    (sweepExpired 1000000 (sweepExpired 1000000 storeC9W).2).1.expired = 0 :=
  ⟨by decide, C9_amended_sweep_idempotent 1000000 storeC9W (by decide)⟩

/-- 51 expired processing PIX transactions — one more than the batch
limit. -/
def manyTxsC9 : List Transaction :=
  (List.range 51).map fun i =>
    { id := i, lead_id := 1, payment_method := PayMethod.pix,
      status := TxStatus.processing, created_at := 0,
      scheduled_date := JSDate.valid 0, scheduled_time := JSDate.valid 0 }

/-- Store for the C9 counterexample: 51 matching transactions. -/
def storeC9 : Store :=
  { leads := [sampleLead], transactions := manyTxsC9, meetings := [],
    messages := [], nextId := 200 }

/-- C9 (counterexample): with 51 matching transactions the first sweep
only processes its batch of 50, so the second sweep still expires one —
`expired = 0` on the second run fails in general. -/
theorem C9_idempotent_counterexample :
    ¬ (sweepExpired 1000000 (sweepExpired 1000000 storeC9).2).1.expired = 0 := by
  decide

/-! ### C4 -/

/-- Monotonic status step: a row keeps its status, or moves from PENDING
to one of the terminal statuses SENT, CANCELLED, FAILED. -/
def MsgStep (a b : QueuedMessage) : Prop :=
  b.id = a.id ∧ (b.status = a.status ∨ (a.status = MsgStatus.PENDING ∧
    (b.status = MsgStatus.SENT ∨ b.status = MsgStatus.CANCELLED ∨
      b.status = MsgStatus.FAILED)))

/-- `MsgStep` is reflexive. -/
theorem MsgStep_refl (m : QueuedMessage) : MsgStep m m := ⟨rfl, Or.inl rfl⟩

/-- `MsgStep` composes: terminal statuses stay put. -/
theorem MsgStep_trans {a b c : QueuedMessage} (h1 : MsgStep a b)
    (h2 : MsgStep b c) : MsgStep a c := by
  refine ⟨h2.1.trans h1.1, ?_⟩
  rcases h1.2 with hb | ⟨hpa, hb⟩
  · rcases h2.2 with hc | ⟨hpb, hc⟩
    · exact Or.inl (hc.trans hb)
    · exact Or.inr ⟨hb ▸ hpb, hc⟩
  · rcases h2.2 with hc | ⟨hpb, hc⟩
    · exact Or.inr ⟨hpa, hc ▸ hb⟩
    · rcases hb with hb | hb | hb <;> rw [hb] at hpb <;> exact (MsgStatus.noConfusion hpb)

/-- A writer cancellation is a monotonic step. -/
theorem MsgStep_cancelRow (L : Nat) (T : MessageType) (m : QueuedMessage) :
    MsgStep m (cancelRow L T m) := by
  unfold cancelRow
  split
  · rename_i h
    exact ⟨rfl, Or.inr ⟨(of_decide_eq_true h).2.2, Or.inr (Or.inl rfl)⟩⟩
  · exact MsgStep_refl m

/-- Mapping to distinct keys is injective on members. -/
theorem map_nodup_inj {α β : Type} {f : α → β} :
    ∀ {l : List α}, (l.map f).Nodup → ∀ {a b : α}, a ∈ l → b ∈ l →
      f a = f b → a = b := by
  intro l
  induction l with
  | nil =>
    intro _ a b ha
    exact absurd ha (List.not_mem_nil a)
  | cons x xs ih =>
    intro h a b ha hb hf
    rw [List.map_cons, List.nodup_cons] at h
    rcases List.mem_cons.mp ha with ha | ha <;> rcases List.mem_cons.mp hb with hb | hb
    · rw [ha, hb]
    · refine absurd ?_ h.1
      rw [← ha, hf]
      exact List.mem_map_of_mem f hb
    · refine absurd ?_ h.1
      rw [← hb, ← hf]
      exact List.mem_map_of_mem f ha
    · exact ih h.2 ha hb hf

/-- Every batch member is a PENDING row of the selecting store. -/
theorem dueBatch_mem (now : Int) (s : Store) :
    ∀ f ∈ dueBatch now s, f.msg ∈ s.messages ∧ f.msg.status = MsgStatus.PENDING := by
  intro f hf
  obtain ⟨m, hm, hfeq⟩ := List.mem_map.mp hf
  have hm1 : m ∈ (s.messages.filter (dueWhere now)).insertionSort
      (fun a b => a.send_after ≤ b.send_after) :=
    (List.take_sublist 20 _).mem hm
  have hm2 : m ∈ s.messages.filter (dueWhere now) :=
    (List.perm_insertionSort _ _).mem_iff.mp hm1
  have hm3 := List.mem_filter.mp hm2
  rw [← hfeq]
  exact ⟨hm3.1, (of_decide_eq_true hm3.2).1⟩

/-- A single unguarded terminal-status update is monotonic relative to a
well-formed original store, provided it targets the id of a PENDING row
of that store. -/
theorem applyUpdate_mono (s0 s : Store) (u : UpdateSpec)
    (hg : u.guard = none)
    (hterm : u.newStatus = MsgStatus.SENT ∨ u.newStatus = MsgStatus.CANCELLED ∨
      u.newStatus = MsgStatus.FAILED)
    (hb : ∃ bm ∈ s0.messages, bm.id = u.id ∧ bm.status = MsgStatus.PENDING)
    (hwf : (s0.messages.map (fun m => m.id)).Nodup)
    (h1 : ∀ (i : Nat) (m m' : QueuedMessage), s0.messages.get? i = some m →
      s.messages.get? i = some m' → MsgStep m m') :
    ∀ (i : Nat) (m m' : QueuedMessage), s0.messages.get? i = some m →
      (applyUpdate u s).messages.get? i = some m' → MsgStep m m' := by
  intro i m m' hm hm'
  rw [show (applyUpdate u s).messages = s.messages.map (applyUpdateRow u) from rfl,
    List.get?_map] at hm'
  cases hc : s.messages.get? i with
  | none =>
    rw [hc] at hm'
    exact absurd hm' (by simp)
  | some c =>
    rw [hc] at hm'
    have hm'eq : m' = applyUpdateRow u c := (Option.some.inj hm').symm
    have hmc : MsgStep m c := h1 i m c hm hc
    by_cases hid : u.id = c.id
    · obtain ⟨bm, hbm, hbid, hbst⟩ := hb
      have hmm : m ∈ s0.messages := List.get?_mem hm
      have hmid : m.id = bm.id := by rw [hbid, hid, hmc.1]
      have hmb : m = bm := map_nodup_inj hwf hmm hbm hmid
      refine ⟨?_, Or.inr ⟨hmb ▸ hbst, ?_⟩⟩
      · rw [hm'eq, applyUpdateRow_id, hmc.1]
      · rw [hm'eq, applyUpdateRow_status u c hid hg]
        exact hterm
    · rw [hm'eq, applyUpdateRow_ne u c hid]
      exact hmc

/-- The processor loop only performs monotonic status steps on the rows
of the original (well-formed) store. -/
theorem processGo_monotonic (now : Int) (env : JsEnv) :
    ∀ (batch : List FetchedMsg) (s0 s : Store),
      (∀ b ∈ batch, b.msg ∈ s0.messages ∧ b.msg.status = MsgStatus.PENDING) →
      ((s0.messages.map (fun m => m.id)).Nodup) →
      (∀ (i : Nat) (m m' : QueuedMessage), s0.messages.get? i = some m →
        s.messages.get? i = some m' → MsgStep m m') →
      ∀ (i : Nat) (m m' : QueuedMessage), s0.messages.get? i = some m →
        (processGo now env batch s).2.1.messages.get? i = some m' → MsgStep m m' := by
  intro batch
  induction batch with
  | nil =>
    intro s0 s _ _ h1 i m m' hm hm'
    exact h1 i m m' hm hm'
  | cons b rest ih =>
    intro s0 s h2 hwf h1 i m m' hm hm'
    have hb : ∃ bm ∈ s0.messages, bm.id = b.msg.id ∧ bm.status = MsgStatus.PENDING :=
      ⟨b.msg, (h2 b (List.mem_cons_self b rest)).1, rfl,
        (h2 b (List.mem_cons_self b rest)).2⟩
    have h2' : ∀ f ∈ rest, f.msg ∈ s0.messages ∧ f.msg.status = MsgStatus.PENDING :=
      fun f hf => h2 f (List.mem_cons_of_mem b hf)
    unfold processGo at hm'
    rcases hsc : shouldCancelMessage s b with _ | r
    · rw [hsc] at hm'
      rcases hgen : generateMessageText env b with _ | text
      · rw [hgen] at hm'
        dsimp only at hm'
        exact ih s0 _ h2' hwf
          (applyUpdate_mono s0 s _ rfl (Or.inr (Or.inr rfl)) hb hwf h1) i m m' hm hm'
      · rw [hgen] at hm'
        dsimp only at hm'
        rcases hsend : (env.send b.msg.phone text).success with _ | _
        · rw [hsend] at hm'
          simp only [Bool.false_eq_true, if_false] at hm'
          exact ih s0 _ h2' hwf
            (applyUpdate_mono s0 s _ rfl (Or.inr (Or.inr rfl)) hb hwf h1) i m m' hm hm'
        · rw [hsend] at hm'
          simp only [if_true] at hm'
          exact ih s0 _ h2' hwf
            (applyUpdate_mono s0 s _ rfl (Or.inl rfl) hb hwf h1) i m m' hm hm'
    · rw [hsc] at hm'
      dsimp only at hm'
      exact ih s0 _ h2' hwf
        (applyUpdate_mono s0 s _ rfl (Or.inr (Or.inl rfl)) hb hwf h1) i m m' hm hm'

/-- Each writer operation only performs monotonic status steps on
existing rows (freshly inserted rows occupy new positions). -/
theorem applyWriter_monotonic (now : Int) (op : WriterOp) (s : Store) :
    ∀ (i : Nat) (m m' : QueuedMessage), s.messages.get? i = some m →
      (applyWriter now op s).messages.get? i = some m' → MsgStep m m' := by
  intro i m m' hm hm'
  have hlt : i < s.messages.length := (List.get?_eq_some.mp hm).1
  cases op with
  | welcome lead =>
    rcases he : s.messages.find? (activeWhere lead.id MessageType.LEAD_WELCOME)
      with _ | ex
    · rw [show applyWriter now (WriterOp.welcome lead) s =
          (queueLeadWelcomeMessage now lead s).2 from rfl,
        queueWelcome_insert now lead s he] at hm'
      dsimp only at hm'
      rw [List.get?_append hlt, hm] at hm'
      have heq := Option.some.inj hm'
      subst heq
      exact MsgStep_refl m
    · rw [show applyWriter now (WriterOp.welcome lead) s =
          (queueLeadWelcomeMessage now lead s).2 from rfl,
        queueWelcome_skip now lead s ex he] at hm'
      rw [hm] at hm'
      have heq := Option.some.inj hm'
      subst heq
      exact MsgStep_refl m
  | abandoned lead =>
    rcases hp : s.transactions.find? (fun t =>
        decide (t.lead_id = lead.id ∧ t.status = TxStatus.succeeded)) with _ | tr
    · rcases he : s.messages.find? (activeWhere lead.id MessageType.PAYMENT_ABANDONED)
        with _ | ex
      · rw [show applyWriter now (WriterOp.abandoned lead) s =
            (queuePaymentAbandonedMessage now lead s).2 from rfl,
          queueAbandoned_insert now lead s hp he] at hm'
        dsimp only [cancelPendingWelcomeMessage] at hm'
        rw [List.get?_append (by simpa using hlt), List.get?_map, hm] at hm'
        have heq := Option.some.inj hm'
        rw [← heq]
        exact MsgStep_cancelRow _ _ m
      · rw [show applyWriter now (WriterOp.abandoned lead) s =
            (queuePaymentAbandonedMessage now lead s).2 from rfl,
          queueAbandoned_skip_existing now lead s ex hp he] at hm'
        rw [hm] at hm'
        have heq := Option.some.inj hm'
        subst heq
        exact MsgStep_refl m
    · rw [show applyWriter now (WriterOp.abandoned lead) s =
          (queuePaymentAbandonedMessage now lead s).2 from rfl,
        queueAbandoned_skip_success now lead s tr hp] at hm'
      rw [hm] at hm'
      have heq := Option.some.inj hm'
      subst heq
      exact MsgStep_refl m
  | confirmed lead =>
    rcases he : s.messages.find? (activeWhere lead.id MessageType.PAYMENT_CONFIRMED)
      with _ | ex
    · rw [show applyWriter now (WriterOp.confirmed lead) s =
          (queuePaymentConfirmedMessage now lead s).2 from rfl,
        queueConfirmed_insert now lead s he] at hm'
      dsimp only [cancelPendingWelcomeMessage, cancelPendingAbandonedMessage] at hm'
      rw [List.get?_append (by simpa using hlt), List.get?_map, List.get?_map, hm] at hm'
      have heq := Option.some.inj hm'
      rw [← heq]
      exact MsgStep_trans (MsgStep_cancelRow lead.id MessageType.LEAD_WELCOME m)
        (MsgStep_cancelRow lead.id MessageType.PAYMENT_ABANDONED _)
    · rw [show applyWriter now (WriterOp.confirmed lead) s =
          (queuePaymentConfirmedMessage now lead s).2 from rfl,
        queueConfirmed_skip now lead s ex he] at hm'
      rw [hm] at hm'
      have heq := Option.some.inj hm'
      subst heq
      exact MsgStep_refl m
  | cancelWelcome leadId =>
    rw [show applyWriter now (WriterOp.cancelWelcome leadId) s =
        (cancelPendingWelcomeMessage leadId s).2 from rfl] at hm'
    dsimp only [cancelPendingWelcomeMessage] at hm'
    rw [List.get?_map, hm] at hm'
    have heq := Option.some.inj hm'
    rw [← heq]
    exact MsgStep_cancelRow _ _ m
  | cancelAbandoned leadId =>
    rw [show applyWriter now (WriterOp.cancelAbandoned leadId) s =
        (cancelPendingAbandonedMessage leadId s).2 from rfl] at hm'
    dsimp only [cancelPendingAbandonedMessage] at hm'
    rw [List.get?_map, hm] at hm'
    have heq := Option.some.inj hm'
    rw [← heq]
    exact MsgStep_cancelRow _ _ m

/-- An operation of the subsystem: one of the five writer calls, or one
Queue Processor run. -/
inductive QueueOp where
  | writer (w : WriterOp)
  | processor

/-- Effect of an operation on the store. -/
def applyOp (now : Int) (env : JsEnv) (op : QueueOp) (s : Store) : Store :=
  match op with
  | .writer w => applyWriter now w s
  | .processor => (processDue now env s).store

/-- C4: status transitions are monotonic.  For every operation — any
Queue Writer call or a Queue Processor run — on a store with distinct
row ids, each pre-existing row either keeps its status or moves
PENDING → SENT/CANCELLED/FAILED; no operation changes the status of a
row that is already SENT, CANCELLED, or FAILED. -/
theorem C4_monotonic_transitions (now : Int) (env : JsEnv) (op : QueueOp) (s : Store)
    (hwf : (s.messages.map (fun m => m.id)).Nodup) :
    ∀ (i : Nat) (m m' : QueuedMessage), s.messages.get? i = some m →
      (applyOp now env op s).messages.get? i = some m' → MsgStep m m' := by
  cases op with
  | writer w => exact applyWriter_monotonic now w s
  | processor =>
    refine processGo_monotonic now env (dueBatch now s) s s (dueBatch_mem now s) hwf ?_
    intro i m m' hm hm'
    rw [hm] at hm'
    have heq := Option.some.inj hm'
    subst heq
    exact MsgStep_refl m

/-- Witness for C4 at a concrete processor run. -/
theorem C4_monotonic_transitions_witness :
    ((storeC8.messages.map (fun m => m.id)).Nodup) ∧
    (∀ (i : Nat) (m m' : QueuedMessage), storeC8.messages.get? i = some m →
      (applyOp 1000 sampleEnv QueueOp.processor storeC8).messages.get? i = some m' →
      MsgStep m m') :=
  ⟨by decide,
   C4_monotonic_transitions 1000 sampleEnv QueueOp.processor storeC8 (by decide)⟩
